import Mathlib

/-! Vacuum firmware: motor PWM driver, button arbiter, indicator light, battery
and temperature samplers, tachometer.

A state-passing embedding of `motor_pwm/motor_pwm.cpp`, `button/button.cpp`,
`led/led.cpp`, `battery/battery.cpp`, `temperature/temperature.cpp`,
`tachometer/tachometer.cpp`, the text-message handler of
`websocket/websocket.cpp` and the head of `loop()` in `main.cpp`. Clock values are values of `millis()`, an
`unsigned long` of 32 bits. Every C++ function that mutates the module's static variables becomes a function
from the state before the call to the state after it.  The effects on the
peripherals (`ledcAttachPin`, `ledcDetachPin`, `ledcWrite`, `pinMode`,
`digitalWrite`) are recorded in the state as the last value each peripheral
register received, so that what the pin observes can be stated.
-/

/-- Logic level of a GPIO pin (`LOW` = 0, `HIGH` = 1 in Arduino.h). -/
inductive PinLevel where
  | LOW
  | HIGH
  deriving DecidableEq, Repr

/-! ## motor_pwm/motor_pwm.cpp -/

/-- The static variables of motor_pwm.cpp (`duty`, `running`, `pinAttached`)
together with the observable state of the PWM pin: whether the LEDC peripheral
is routed to the pin, whether the pin is configured as an output, the last
level written with `digitalWrite`, and the last value written with `ledcWrite`. -/
structure MotorPWM where
  duty : Int
  running : Bool
  pinAttached : Bool
  ledcAttached : Bool
  pinOutput : Bool
  pinLevel : PinLevel
  ledcDuty : Int
  deriving DecidableEq, Repr

/-- Effect of `ledcAttachPin(PWM_PIN, PWM_CHANNEL)`. -/
def ledcAttachPin (s : MotorPWM) : MotorPWM :=
  { s with ledcAttached := true }

/-- Effect of `ledcDetachPin(PWM_PIN)`. -/
def ledcDetachPin (s : MotorPWM) : MotorPWM :=
  { s with ledcAttached := false }

/-- Effect of `pinMode(PWM_PIN, OUTPUT)`. -/
def pinModeOutput (s : MotorPWM) : MotorPWM :=
  { s with pinOutput := true }

/-- Effect of `digitalWrite(PWM_PIN, level)`. -/
def digitalWrite (level : PinLevel) (s : MotorPWM) : MotorPWM :=
  { s with pinLevel := level }

/-- Effect of `ledcWrite(PWM_CHANNEL, value)`. -/
def ledcWrite (value : Int) (s : MotorPWM) : MotorPWM :=
  { s with ledcDuty := value }

/-- The values of the static initialisers, before `initMotorPWM` has run; the
peripheral is in its reset state. -/
def motorBoot : MotorPWM :=
  { duty := 0, running := false, pinAttached := true, ledcAttached := false,
    pinOutput := false, pinLevel := PinLevel.LOW, ledcDuty := 0 }

/-- `void initMotorPWM()` (motor_pwm.cpp:16-26). `ledcSetup` configures the
timer only and is not recorded. -/
def initMotorPWM (s : MotorPWM) : MotorPWM :=
  let s := { s with running := false }
  let s := { s with duty := 0 }
  let s := { s with pinAttached := false }
  let s := ledcDetachPin s
  let s := pinModeOutput s
  digitalWrite PinLevel.LOW s

/-- `void setMotorDuty(int newDuty)` (motor_pwm.cpp:28-56). -/
def setMotorDuty (newDuty : Int) (s : MotorPWM) : MotorPWM :=
  let newDuty := if newDuty < 0 then 0 else newDuty
  let newDuty := if newDuty > 255 then 255 else newDuty
  let s := { s with duty := newDuty }
  if s.duty = 0 then
    let s := if s.pinAttached then { ledcDetachPin s with pinAttached := false } else s
    let s := pinModeOutput s
    let s := digitalWrite PinLevel.LOW s
    { s with running := false }
  else
    let s := if !s.pinAttached then { ledcAttachPin s with pinAttached := true } else s
    if s.running then ledcWrite s.duty s else s

/-- `void startMotor()` (motor_pwm.cpp:58-68). -/
def startMotor (s : MotorPWM) : MotorPWM :=
  let s := if s.duty > 0 ∧ !s.pinAttached then
      { ledcAttachPin s with pinAttached := true } else s
  let s := { s with running := true }
  if s.duty > 0 then ledcWrite s.duty s else s

/-- `void stopMotor()` (motor_pwm.cpp:70-81). -/
def stopMotor (s : MotorPWM) : MotorPWM :=
  let s := { s with running := false }
  let s := ledcWrite 0 s
  let s := if s.pinAttached then { ledcDetachPin s with pinAttached := false } else s
  let s := pinModeOutput s
  digitalWrite PinLevel.LOW s

/-- `int getMotorDuty()` (motor_pwm.cpp:83-85). -/
def getMotorDuty (s : MotorPWM) : Int := s.duty

/-- `bool isMotorRunning()` (motor_pwm.cpp:87-89). -/
def isMotorRunning (s : MotorPWM) : Bool := s.running

/-- `void handleMotorCommand(const char* key, int value)` (motor_pwm.cpp:91-111);
`strcmp(key, "speed") == 0` is string equality, the serial log is not recorded. -/
def handleMotorCommand (key : String) (value : Int) (s : MotorPWM) : MotorPWM :=
  if key = "speed" then
    let speed := value
    let speed := if speed < 0 then 0 else speed
    let speed := if speed > 255 then 255 else speed
    if speed = 0 then
      stopMotor s
    else
      startMotor (setMotorDuty speed s)
  else s

/-- One call of the driver's mutating interface. -/
inductive MotorCall where
  | setDuty (v : Int)
  | start
  | stop
  deriving DecidableEq, Repr

/-- The state after one call. -/
def MotorCall.run : MotorCall → MotorPWM → MotorPWM
  | MotorCall.setDuty v, s => setMotorDuty v s
  | MotorCall.start, s => startMotor s
  | MotorCall.stop, s => stopMotor s

/-- The state after a sequence of calls, made in list order. -/
def runMotorCalls : List MotorCall → MotorPWM → MotorPWM
  | [], s => s
  | c :: cs, s => runMotorCalls cs (c.run s)

/-- The value `v` limited to the duty range 0..255. -/
def clampDuty (v : Int) : Int := max 0 (min v 255)

/-! ## button/button.cpp -/

/-- `digitalRead(pin)` as the `int` the Arduino core returns. -/
def PinLevel.toInt : PinLevel → Int
  | PinLevel.LOW => 0
  | PinLevel.HIGH => 1

/-- The C conversion of an `int` to `bool`. -/
def intToBool (x : Int) : Bool := x != 0

/-- The C operator `!` on an `int`. -/
def logicalNot (x : Int) : Bool := x == 0

/-- Subtraction of two `unsigned long` values (32 bit on the target), wrapping
around modulo 2^32. -/
def subU32 (a b : Nat) : Nat := (a % 4294967296 + (4294967296 - b % 4294967296)) % 4294967296

/-- `DEBOUNCE_DELAY` (button.cpp:20), milliseconds. -/
def DEBOUNCE_DELAY : Nat := 50

/-- The static variables of button.cpp and the last level written to
`MOSFET_PIN`. `speedPercent` is a `uint8_t`, `lastDebounceTime` an
`unsigned long`. -/
structure Buttons where
  speedPercent : Nat
  motorActive : Bool
  triggerState : Bool
  triggerLastState : Bool
  upState : Bool
  upLastState : Bool
  downState : Bool
  downLastState : Bool
  lastDebounceTime : Nat
  mosfetLevel : PinLevel
  deriving DecidableEq, Repr

/-- The values of the static initialisers of button.cpp. -/
def buttonsBoot : Buttons :=
  { speedPercent := 0, motorActive := false, triggerState := false,
    triggerLastState := false, upState := false, upLastState := false,
    downState := false, downLastState := false, lastDebounceTime := 0,
    mosfetLevel := PinLevel.LOW }

/-- `void initButtons()` (button.cpp:22-39); the three arguments are the levels
`digitalRead` returns for the trigger, up and down pins. -/
def initButtons (trigger up down : PinLevel) (s : Buttons) : Buttons :=
  let s := { s with mosfetLevel := PinLevel.LOW }
  let s := { s with speedPercent := 0 }
  let s := { s with triggerLastState := intToBool trigger.toInt }
  let s := { s with upLastState := intToBool up.toInt }
  { s with downLastState := intToBool down.toInt }

/-- The trigger part of `updateButtons` (button.cpp:49-76): the trigger is taken
without debounce, a held trigger forces `motorActive`, a release edge clears it,
and the MOSFET pin follows `motorActive`. -/
def updateTrigger (triggerReading : Bool) (s : Buttons) : Buttons :=
  let triggerChanged := triggerReading != s.triggerLastState
  let s : Buttons := { s with triggerState := triggerReading }
  let s : Buttons :=
    if s.triggerState then
      if !s.motorActive then { s with motorActive := true } else s
    else
      if triggerChanged then { s with motorActive := false } else s
  let s : Buttons := { s with triggerLastState := triggerReading }
  if s.motorActive then { s with mosfetLevel := PinLevel.HIGH }
  else { s with mosfetLevel := PinLevel.LOW }

/-- The debounce timer of `updateButtons` (button.cpp:78-81): a change of either
step input restarts the timer. -/
def updateDebounceTime (currentTime : Nat) (upReading downReading : Bool) (s : Buttons) :
    Buttons :=
  if upReading != s.upLastState || downReading != s.downLastState then
    { s with lastDebounceTime := currentTime % 4294967296 }
  else s

/-- The up step of `updateButtons` (button.cpp:85-91): an 8-bit `+= 20`, then
the cap at 100. -/
def stepUp (upReading : Bool) (s : Buttons) : Buttons :=
  if upReading && !s.upState then
    let s : Buttons := { s with speedPercent := (s.speedPercent + 20) % 256 }
    if s.speedPercent > 100 then { s with speedPercent := 100 } else s
  else s

/-- The down step of `updateButtons` (button.cpp:94-101). -/
def stepDown (downReading : Bool) (s : Buttons) : Buttons :=
  if downReading && !s.downState then
    if s.speedPercent ≥ 20 then
      { s with speedPercent := (s.speedPercent - 20) % 256 }
    else { s with speedPercent := 0 }
  else s

/-- The debounced part of `updateButtons` (button.cpp:83-105). -/
def updateSteps (currentTime : Nat) (upReading downReading : Bool) (s : Buttons) : Buttons :=
  if subU32 currentTime s.lastDebounceTime > DEBOUNCE_DELAY then
    let s : Buttons := stepUp upReading s
    let s : Buttons := stepDown downReading s
    let s : Buttons := { s with upState := upReading }
    { s with downState := downReading }
  else s

/-- `void updateButtons()` (button.cpp:41-111), as the sequence of its parts;
`currentTime` is the value of `millis()` and the three levels are what
`digitalRead` returns for the trigger, up and down pins (the inputs have
pull-ups: `LOW` means pressed). -/
def updateButtons (currentTime : Nat) (trigger up down : PinLevel) (s : Buttons) : Buttons :=
  let triggerReading := logicalNot trigger.toInt
  let upReading := logicalNot up.toInt
  let downReading := logicalNot down.toInt
  let s : Buttons := updateTrigger triggerReading s
  let s : Buttons := updateDebounceTime currentTime upReading downReading s
  let s : Buttons := updateSteps currentTime upReading downReading s
  let s : Buttons := { s with upLastState := upReading }
  { s with downLastState := downReading }

/-- `uint8_t getSpeed()` (button.cpp:113-115). -/
def getSpeed (s : Buttons) : Nat := s.speedPercent

/-- `bool isTriggerPressed()` (button.cpp:117-119). -/
def isTriggerPressed (s : Buttons) : Bool := s.triggerState

/-- `void setSpeed(uint8_t speed)` (button.cpp:121-126); the argument is
converted to the 8-bit parameter type at the call. -/
def setSpeed (speed : Nat) (s : Buttons) : Buttons :=
  let s := { s with speedPercent := speed % 256 }
  if s.speedPercent > 100 then { s with speedPercent := 100 } else s

/-- `bool isMotorActive()` (button.cpp:128-130). -/
def isMotorActive (s : Buttons) : Bool := s.motorActive

/-- `void setMotorState(bool active)` (button.cpp:132-142). -/
def setMotorState (active : Bool) (s : Buttons) : Buttons :=
  let s := { s with motorActive := active }
  if s.motorActive then { s with mosfetLevel := PinLevel.HIGH }
  else { s with mosfetLevel := PinLevel.LOW }

/-- A call made by the remote-command path between two scheduler ticks. -/
inductive RemoteCall where
  | speed (v : Nat)
  | motorState (active : Bool)
  deriving DecidableEq, Repr

/-- The state after one remote call. -/
def RemoteCall.run : RemoteCall → Buttons → Buttons
  | RemoteCall.speed v, s => setSpeed v s
  | RemoteCall.motorState a, s => setMotorState a s

/-- The state after a sequence of remote calls, made in list order. -/
def runRemoteCalls : List RemoteCall → Buttons → Buttons
  | [], s => s
  | c :: cs, s => runRemoteCalls cs (c.run s)

/-- The inputs of one `updateButtons` call in which the trigger reads released:
the clock and the levels of the up and down pins. -/
structure IdleTick where
  now : Nat
  up : PinLevel
  down : PinLevel
  deriving DecidableEq, Repr

/-- The state after a sequence of `updateButtons` calls that all read the
trigger pin `HIGH` (released). -/
def runIdleTicks : List IdleTick → Buttons → Buttons
  | [], s => s
  | t :: ts, s => runIdleTicks ts (updateButtons t.now PinLevel.HIGH t.up t.down s)

/-- The guard of button.cpp:83 as evaluated by a call of `updateButtons`: neither
step input differs from its previous reading (so `lastDebounceTime` is kept) and
more than `DEBOUNCE_DELAY` ms have passed since `lastDebounceTime`. -/
def stepsAccepted (currentTime : Nat) (up down : PinLevel) (s : Buttons) : Bool :=
  logicalNot up.toInt == s.upLastState && logicalNot down.toInt == s.downLastState
    && decide (subU32 currentTime s.lastDebounceTime > DEBOUNCE_DELAY)

/-- The guard of button.cpp:85 inside an accepted call: the up input reads
pressed and the debounced up state is released. -/
def upEdge (currentTime : Nat) (up down : PinLevel) (s : Buttons) : Bool :=
  stepsAccepted currentTime up down s && logicalNot up.toInt && !s.upState

/-- The guard of button.cpp:94 inside an accepted call: the down input reads
pressed and the debounced down state is released. -/
def downEdge (currentTime : Nat) (up down : PinLevel) (s : Buttons) : Bool :=
  stepsAccepted currentTime up down s && logicalNot down.toInt && !s.downState

/-! ## Auxiliary definitions used by the statements and proofs -/

/-- The invariant of the motor driver: the `pinAttached` flag agrees with the
peripheral, the pin is an output whose last written level is `LOW`, a zero
duty means detached, and a running motor with a non-zero duty is attached and
the channel holds that duty. -/
def MotorInv (s : MotorPWM) : Prop :=
  s.pinAttached = s.ledcAttached ∧ s.pinLevel = PinLevel.LOW ∧ s.pinOutput = true ∧
    (s.duty = 0 → s.pinAttached = false) ∧
    (0 < s.duty → s.running = true → s.pinAttached = true ∧ s.ledcDuty = s.duty)

/-- A reachable driver state: after boot, `initMotorPWM`, `setMotorDuty(100)`
and `startMotor()` the motor runs at duty 100. -/
def motorRunningAt100 : MotorPWM :=
  runMotorCalls [MotorCall.setDuty 100, MotorCall.start] (initMotorPWM motorBoot)

/-- A reachable button state: after boot with all inputs released, a first tick
at 0 ms, a remote `setSpeed(100)`, and a tick at 1000 ms that reads both step
buttons pressed for the first time. -/
def bothPressedAt100 : Buttons :=
  updateButtons 1000 PinLevel.HIGH PinLevel.LOW PinLevel.LOW
    (setSpeed 100
      (updateButtons 0 PinLevel.HIGH PinLevel.HIGH PinLevel.HIGH
        (initButtons PinLevel.HIGH PinLevel.HIGH PinLevel.HIGH buttonsBoot)))

/-- A reachable button state: as `bothPressedAt100`, with a remote
`setSpeed(90)` and only the up button pressed at 1000 ms. -/
def upPressedAt90 : Buttons :=
  updateButtons 1000 PinLevel.HIGH PinLevel.LOW PinLevel.HIGH
    (setSpeed 90
      (updateButtons 0 PinLevel.HIGH PinLevel.HIGH PinLevel.HIGH
        (initButtons PinLevel.HIGH PinLevel.HIGH PinLevel.HIGH buttonsBoot)))

/-! ## Traces of `updateButtons` calls -/

/-- The inputs of one `updateButtons` call: the value of `millis()` and the
levels `digitalRead` returns for the trigger, up and down pins. -/
structure Tick where
  now : Nat
  trigger : PinLevel
  up : PinLevel
  down : PinLevel
  deriving DecidableEq, Repr

/-- The state after a sequence of `updateButtons` calls, made in list order. -/
def runTicks : List Tick → Buttons → Buttons
  | [], s => s
  | t :: ts, s => runTicks ts (updateButtons t.now t.trigger t.up t.down s)

/-- The value of `getSpeed()` after each call of a sequence of `updateButtons`
calls. -/
def speedsAfter : List Tick → Buttons → List Nat
  | [], _ => []
  | t :: ts, s =>
    getSpeed (updateButtons t.now t.trigger t.up t.down s) ::
      speedsAfter ts (updateButtons t.now t.trigger t.up t.down s)

/-- One of the two step inputs. -/
inductive StepInput where
  | up
  | down
  deriving DecidableEq, Repr

/-- The pin level a tick reads for the given step input. -/
def Tick.level (which : StepInput) (t : Tick) : PinLevel :=
  match which with
  | StepInput.up => t.up
  | StepInput.down => t.down

/-- The pin level a tick reads for the other step input. -/
def Tick.otherLevel (which : StepInput) (t : Tick) : PinLevel :=
  match which with
  | StepInput.up => t.down
  | StepInput.down => t.up

/-- The debounced state (`upState` / `downState`) of a step input. -/
def debouncedState (which : StepInput) (s : Buttons) : Bool :=
  match which with
  | StepInput.up => s.upState
  | StepInput.down => s.downState

/-- The previous reading (`upLastState` / `downLastState`) of a step input. -/
def lastReading (which : StepInput) (s : Buttons) : Bool :=
  match which with
  | StepInput.up => s.upLastState
  | StepInput.down => s.downLastState

/-- Whether the call `t` made in state `s` executes the step of the given input
(the guards of button.cpp:83 and :85, resp. :94). -/
def stepEdge (which : StepInput) (t : Tick) (s : Buttons) : Bool :=
  match which with
  | StepInput.up => upEdge t.now t.up t.down s
  | StepInput.down => downEdge t.now t.up t.down s

/-- The number of calls of a trace that execute the step of the given input. -/
def stepCount (which : StepInput) : List Tick → Buttons → Nat
  | [], _ => 0
  | t :: ts, s =>
    (if stepEdge which t s then 1 else 0) +
      stepCount which ts (updateButtons t.now t.trigger t.up t.down s)

/-- The hypothesis of the fast-toggling property, on the readings alone:
starting from the previous readings `prevUp`, `prevDown` and the time
`lastChange` of the most recent call that observed a change of a step input, at
every call of the trace at most `DEBOUNCE_DELAY` ms (modulo 2^32) have passed
since the most recent call (this one included) that observed a change. -/
def togglesWithinSettle (prevUp prevDown : Bool) (lastChange : Nat) : List Tick → Bool
  | [] => true
  | t :: ts =>
    let changed := logicalNot t.up.toInt != prevUp || logicalNot t.down.toInt != prevDown
    let lastChange := if changed then t.now else lastChange
    decide (subU32 t.now lastChange ≤ DEBOUNCE_DELAY) &&
      togglesWithinSettle (logicalNot t.up.toInt) (logicalNot t.down.toInt) lastChange ts

/-! ## main.cpp -/

/-- The motor part of `loop()` (main.cpp:50-61): with the motor intent active
the exact speed percent is converted to a duty with `(speed * 255) / 100` in
`int` arithmetic, stored with `setMotorDuty` and the motor is started;
otherwise the motor is stopped. -/
def loopMotorStep (b : Buttons) (m : MotorPWM) : MotorPWM :=
  if isMotorActive b then
    let speed : Nat := getSpeed b
    let pwmDuty : Int := ((speed : Int) * 255) / 100
    startMotor (setMotorDuty pwmDuty m)
  else
    stopMotor m

/-! ## led/led.cpp -/

/-- A FastLED colour; each channel is a `uint8_t`. -/
structure CRGB where
  r : Nat
  g : Nat
  b : Nat
  deriving DecidableEq, Repr

/-- The constructor `CRGB(r, g, b)`, whose parameters are `uint8_t`. -/
def CRGB.ofBytes (r g b : Nat) : CRGB :=
  { r := r % 256, g := g % 256, b := b % 256 }

/-- `CRGB::Black`. -/
def CRGB.Black : CRGB := { r := 0, g := 0, b := 0 }

/-- `NUM_LEDS` (led.cpp:6). -/
def NUM_LEDS : Nat := 5

/-- `enum LedPattern` (led.h). -/
inductive LedPattern where
  | LED_OFF
  | LED_STATIC
  | LED_BLINK
  | LED_PULSE
  | LED_SPEED_DISPLAY
  deriving DecidableEq, Repr

/-- The global variables of led.cpp; `leds` is the frame buffer and `shown` the
frame last sent to the strip by `FastLED.show()`. -/
structure Led where
  leds : List CRGB
  shown : List CRGB
  currentPattern : LedPattern
  currentR : Nat
  currentG : Nat
  currentB : Nat
  patternSpeed : Nat
  lastUpdate : Nat
  blinkState : Bool
  pulseBrightness : Nat
  pulseDirection : Bool
  speedDisplayPercent : Nat
  speedDisplayModeActive : Bool
  speedDisplayIsActive : Bool
  deriving DecidableEq, Repr

/-- The values of the static initialisers of led.cpp, with a dark strip. -/
def ledBoot : Led :=
  { leds := List.replicate NUM_LEDS CRGB.Black, shown := List.replicate NUM_LEDS CRGB.Black,
    currentPattern := LedPattern.LED_OFF, currentR := 0, currentG := 0, currentB := 0,
    patternSpeed := 500, lastUpdate := 0, blinkState := false, pulseBrightness := 0,
    pulseDirection := true, speedDisplayPercent := 0, speedDisplayModeActive := false,
    speedDisplayIsActive := false }

/-- A loop `for (int i = 0; i < NUM_LEDS; i++) leds[i] = f(i);`. -/
def fillLeds (f : Nat → CRGB) (s : Led) : Led :=
  { s with leds := (List.range NUM_LEDS).map f }

/-- Effect of `FastLED.show()`. -/
def fastLedShow (s : Led) : Led :=
  { s with shown := s.leds }

/-- The `LED_PULSE` case of `updateLED` (led.cpp:77-98). `wave cycleTime period`
stands for the byte `(uint8_t)(brightness * 255)` that the floating-point sine
computation yields; the remainder by a zero `patternSpeed` has no result. -/
def updatePulse (wave : Nat → Nat → Nat) (currentTime : Nat) (s : Led) : Option Led :=
  if s.patternSpeed = 0 then none
  else
    let cycleTime := currentTime % s.patternSpeed
    let s : Led := { s with pulseBrightness := wave cycleTime s.patternSpeed % 256 }
    let color := CRGB.ofBytes ((s.currentR * s.pulseBrightness) / 255)
      ((s.currentG * s.pulseBrightness) / 255) ((s.currentB * s.pulseBrightness) / 255)
    some (fastLedShow (fillLeds (fun _ => color) s))

/-- The `LED_SPEED_DISPLAY` case of `updateLED` (led.cpp:100-154). -/
def updateSpeedDisplay (wave : Nat → Nat → Nat) (currentTime : Nat) (s : Led) : Led :=
  let displaySpeed : Nat := (((s.speedDisplayPercent + 10) / 20) * 20) % 256
  let displaySpeed : Nat := if displaySpeed > 100 then 100 else displaySpeed
  let ledsToLight : Int := if displaySpeed = 0 then 0 else ((displaySpeed / 20 : Nat) : Int)
  let ledsToLight : Int := if ledsToLight > (NUM_LEDS : Int) then (NUM_LEDS : Int) else ledsToLight
  let activeColor : CRGB :=
    if s.speedDisplayIsActive then CRGB.ofBytes 255 0 0 else CRGB.ofBytes 0 0 255
  let s : Led :=
    if s.speedDisplayPercent = 0 then
      let pulseCycle : Nat := 2000
      let cycleTime := currentTime % pulseCycle
      let pulseBright := wave cycleTime pulseCycle % 256
      fillLeds (fun i =>
        if i = NUM_LEDS - 1 then
          CRGB.ofBytes ((activeColor.r * pulseBright) / 255) ((activeColor.g * pulseBright) / 255)
            ((activeColor.b * pulseBright) / 255)
        else CRGB.Black) s
    else
      fillLeds (fun i =>
        if (i : Int) ≥ (NUM_LEDS : Int) - ledsToLight then activeColor else CRGB.Black) s
  fastLedShow s

/-- `void updateLED()` (led.cpp:33-156); `currentTime` is the value of
`millis()`. The result is `none` when the call divides by zero. -/
def updateLED (wave : Nat → Nat → Nat) (currentTime : Nat) (s : Led) : Option Led :=
  let updateInterval : Nat := s.patternSpeed
  let updateInterval : Nat :=
    if s.currentPattern = LedPattern.LED_PULSE then 10 else updateInterval
  if subU32 currentTime s.lastUpdate < updateInterval then some s
  else
    let s : Led := { s with lastUpdate := currentTime }
    match s.currentPattern with
    | LedPattern.LED_OFF => some (fastLedShow (fillLeds (fun _ => CRGB.Black) s))
    | LedPattern.LED_STATIC =>
      some (fastLedShow (fillLeds (fun _ => CRGB.ofBytes s.currentR s.currentG s.currentB) s))
    | LedPattern.LED_BLINK =>
      let s : Led := { s with blinkState := !s.blinkState }
      let s : Led :=
        if s.blinkState then fillLeds (fun _ => CRGB.ofBytes s.currentR s.currentG s.currentB) s
        else fillLeds (fun _ => CRGB.Black) s
      some (fastLedShow s)
    | LedPattern.LED_PULSE => updatePulse wave currentTime s
    | LedPattern.LED_SPEED_DISPLAY => some (updateSpeedDisplay wave currentTime s)

/-- `void setLEDPattern(LedPattern pattern)` (led.cpp:158-164). -/
def setLEDPattern (pattern : LedPattern) (s : Led) : Led :=
  { s with currentPattern := pattern, lastUpdate := 0, pulseBrightness := 0,
           pulseDirection := true, blinkState := false }

/-- `void setLEDColor(uint8_t r, uint8_t g, uint8_t b)` (led.cpp:166-170). -/
def setLEDColor (r g b : Nat) (s : Led) : Led :=
  { s with currentR := r % 256, currentG := g % 256, currentB := b % 256 }

/-- `void setLEDSpeed(uint16_t speed)` (led.cpp:172-174). -/
def setLEDSpeed (speed : Nat) (s : Led) : Led :=
  { s with patternSpeed := speed % 65536 }

/-- `void setLEDSpeedDisplay(uint8_t speedPercent, bool isActive)`
(led.cpp:176-183). -/
def setLEDSpeedDisplay (speedPercent : Nat) (isActive : Bool) (s : Led) : Led :=
  let s : Led := { s with speedDisplayPercent := speedPercent % 256 }
  let s : Led := { s with speedDisplayIsActive := isActive }
  if s.speedDisplayModeActive then
    { s with currentPattern := LedPattern.LED_SPEED_DISPLAY, lastUpdate := 0 }
  else s

/-- `void checkSpeedDisplayMode(unsigned long bootTime)` (led.cpp:185-193);
`now` is the value of `millis()`. -/
def checkSpeedDisplayMode (now bootTime : Nat) (s : Led) : Led :=
  if !s.speedDisplayModeActive ∧ subU32 now bootTime ≥ 2000 then
    { s with speedDisplayModeActive := true, currentPattern := LedPattern.LED_SPEED_DISPLAY,
             lastUpdate := 0 }
  else s

/-- The number of lit (not black) positions of a frame. -/
def litCount (frame : List CRGB) : Nat :=
  (frame.filter (fun c => c != CRGB.Black)).length

/-! ## battery/battery.cpp

The `float` computations are embedded in exact rational arithmetic. -/

/-- `VBAT_R_TOP` (battery.cpp:7). -/
def VBAT_R_TOP : ℚ := 330000

/-- `VBAT_R_BOT` (battery.cpp:8). -/
def VBAT_R_BOT : ℚ := 22000

/-- `VBAT_SCALE` (battery.cpp:9). -/
def VBAT_SCALE : ℚ := (VBAT_R_TOP + VBAT_R_BOT) / VBAT_R_BOT

/-- `CAL_VTRUE1` (battery.cpp:12). -/
def CAL_VTRUE1 : ℚ := 12

/-- `CAL_VTRUE2` (battery.cpp:13). -/
def CAL_VTRUE2 : ℚ := 36

/-- `CAL_VMEAS1` (battery.cpp:15), 11.640. -/
def CAL_VMEAS1 : ℚ := 1164 / 100

/-- `CAL_VMEAS2` (battery.cpp:16), 35.280. -/
def CAL_VMEAS2 : ℚ := 3528 / 100

/-- The static variables of battery.cpp and the calibration coefficients
`VBAT_CAL_SLOPE`, `VBAT_CAL_OFFSET`. -/
structure Battery where
  VBAT_CAL_SLOPE : ℚ
  VBAT_CAL_OFFSET : ℚ
  lastBatteryVoltage : ℚ
  lastBatteryVoltageRaw : ℚ
  batteryReady : Bool
  lastReadTime : Nat
  deriving DecidableEq, Repr

/-- `N` of battery.cpp (line 23): the number of samples averaged. -/
def Battery.N : Nat := 8

/-- `READ_INTERVAL` of battery.cpp (line 30), milliseconds. -/
def Battery.READ_INTERVAL : Nat := 250

/-- The values of the static initialisers of battery.cpp. -/
def batteryBoot : Battery :=
  { VBAT_CAL_SLOPE := 1, VBAT_CAL_OFFSET := 0, lastBatteryVoltage := 0,
    lastBatteryVoltageRaw := 0, batteryReady := false, lastReadTime := 0 }

/-- The body of `initBattery` (battery.cpp:32-40) with the four calibration
constants as parameters; `now` is the value of `millis()`. -/
def initBatteryWith (vtrue1 vmeas1 vtrue2 vmeas2 : ℚ) (now : Nat) (s : Battery) : Battery :=
  let s : Battery := { s with VBAT_CAL_SLOPE := (vtrue2 - vtrue1) / (vmeas2 - vmeas1) }
  let s : Battery := { s with VBAT_CAL_OFFSET := vtrue1 - s.VBAT_CAL_SLOPE * vmeas1 }
  { s with lastReadTime := now }

/-- `void initBattery()` (battery.cpp:32-40). -/
def initBattery (now : Nat) (s : Battery) : Battery :=
  initBatteryWith CAL_VTRUE1 CAL_VMEAS1 CAL_VTRUE2 CAL_VMEAS2 now s

/-- A loop `for (uint8_t i = 0; i < n; i++) acc += sample(i);` on a `uint32_t`
accumulator that starts at 0. -/
def sumU32 (sample : Nat → Nat) (n : Nat) : Nat :=
  (List.range n).foldl (fun acc i => (acc + sample i % 4294967296) % 4294967296) 0

/-- The line `vcal = vmeas * VBAT_CAL_SLOPE + VBAT_CAL_OFFSET` (battery.cpp:66). -/
def calibrate (s : Battery) (vmeas : ℚ) : ℚ :=
  vmeas * s.VBAT_CAL_SLOPE + s.VBAT_CAL_OFFSET

/-- `void updateBattery()` (battery.cpp:42-74); `currentTime` is the value of
`millis()` and `sample i` the result of the `i`-th `analogReadMilliVolts`. -/
def updateBattery (currentTime : Nat) (sample : Nat → Nat) (s : Battery) : Battery :=
  if subU32 currentTime s.lastReadTime < Battery.READ_INTERVAL then s
  else
    let s : Battery := { s with lastReadTime := currentTime }
    let mv : Nat := sumU32 sample Battery.N
    let vpin : ℚ := (mv : ℚ) / (Battery.N : ℚ) / 1000
    let vmeas : ℚ := vpin * VBAT_SCALE
    let s : Battery := { s with lastBatteryVoltageRaw := vmeas }
    let vcal : ℚ := calibrate s vmeas
    let vcal : ℚ := if vcal < 0 then 0 else vcal
    let vcal : ℚ := if vcal > 60 then 60 else vcal
    let s : Battery := { s with lastBatteryVoltage := vcal }
    { s with batteryReady := true }

/-- `float getBatteryVoltage()` (battery.cpp:76-78). -/
def getBatteryVoltage (s : Battery) : ℚ := s.lastBatteryVoltage

/-- `float getBatteryVoltageRaw()` (battery.cpp:80-82). -/
def getBatteryVoltageRaw (s : Battery) : ℚ := s.lastBatteryVoltageRaw

/-- `bool isBatteryReady()` (battery.cpp:84-86). -/
def isBatteryReady (s : Battery) : Bool := s.batteryReady

/-- One call of the battery module: `initBattery` at a clock value, or
`updateBattery` at a clock value with its millivolt readings. -/
inductive BatteryCall where
  | init (now : Nat)
  | update (now : Nat) (sample : Nat → Nat)

/-- The state after one call. -/
def BatteryCall.run : BatteryCall → Battery → Battery
  | BatteryCall.init now, s => initBattery now s
  | BatteryCall.update now sample, s => updateBattery now sample s

/-- The state after a sequence of calls, made in list order. -/
def runBatteryCalls : List BatteryCall → Battery → Battery
  | [], s => s
  | c :: cs, s => runBatteryCalls cs (c.run s)

/-! ## temperature/temperature.cpp

The `float` computations are embedded over an arbitrary field `K` with the
logarithm `ln` as a parameter; the statements instantiate `K` with the real
numbers and `ln` with the natural logarithm. -/

/-- `SERIES_R` (temperature.cpp:9). -/
def SERIES_R (K : Type) [Field K] : K := 10000

/-- `ADC12_MAX` (temperature.cpp:12). -/
def ADC12_MAX : Nat := 4095

/-- `R0` (temperature.cpp:15). -/
def R0 (K : Type) [Field K] : K := 10000

/-- `T0_K` (temperature.cpp:16), 298.15. -/
def T0_K (K : Type) [Field K] : K := 29815 / 100

/-- `BETA` (temperature.cpp:17). -/
def BETA (K : Type) [Field K] : K := 3950

/-- The static variables of temperature.cpp. -/
structure Temperature (K : Type) where
  lastTemperature : K
  temperatureReady : Bool
  lastReadTime : Nat

/-- `N` of temperature.cpp (line 20): the number of samples averaged. -/
def Temperature.N : Nat := 8

/-- `READ_INTERVAL` of temperature.cpp (line 26), milliseconds. -/
def Temperature.READ_INTERVAL : Nat := 250

/-- The values of the static initialisers of temperature.cpp. -/
def temperatureBoot (K : Type) [Field K] : Temperature K :=
  { lastTemperature := 0, temperatureReady := false, lastReadTime := 0 }

/-- `void initTemperature()` (temperature.cpp:28-31). -/
def initTemperature {K : Type} (now : Nat) (s : Temperature K) : Temperature K :=
  { s with lastReadTime := now }

/-- The averaged code `uint16_t adc = acc / N` (temperature.cpp:44-50);
`sample i` is the `uint16_t` result of the `i`-th `analogRead`. -/
def averagedCode (sample : Nat → Nat) : Nat :=
  (sumU32 (fun i => sample i % 65536) Temperature.N / Temperature.N) % 65536

/-- The guard on the averaged code (temperature.cpp:52-54). -/
def adcGuard (adc : Nat) : Nat :=
  let adc := if adc < 1 then 1 else adc
  if adc ≥ ADC12_MAX then ADC12_MAX - 1 else adc

/-- The thermistor resistance `Rth` of a guarded code (temperature.cpp:60). -/
def thermistorResistance (K : Type) [Field K] (adc : Nat) : K :=
  SERIES_R K * ((((ADC12_MAX : Int) - (adc : Int) : Int) : K) / (adc : K))

/-- The Beta equation `T_K` of a resistance (temperature.cpp:65). -/
def betaKelvin {K : Type} [Field K] (ln : K → K) (Rth : K) : K :=
  1 / (1 / T0_K K + (1 / BETA K) * ln (Rth / R0 K))

/-- The conversion `T_C = T_K - 273.15` (temperature.cpp:68). -/
def kelvinToCelsius {K : Type} [Field K] (tK : K) : K :=
  tK - 27315 / 100

/-- The conversion of an averaged code to degrees Celsius made by
`updateTemperature` (temperature.cpp:52-68). -/
def temperatureOfCode {K : Type} [Field K] (ln : K → K) (adc : Nat) : K :=
  let adc := adcGuard adc
  let rth : K := thermistorResistance K adc
  let tK : K := betaKelvin ln rth
  kelvinToCelsius tK

/-- `void updateTemperature()` (temperature.cpp:33-72); `currentTime` is the
value of `millis()`. -/
def updateTemperature {K : Type} [Field K] (ln : K → K) (currentTime : Nat)
    (sample : Nat → Nat) (s : Temperature K) : Temperature K :=
  if subU32 currentTime s.lastReadTime < Temperature.READ_INTERVAL then s
  else
    let s : Temperature K := { s with lastReadTime := currentTime }
    let adc := averagedCode sample
    let s : Temperature K := { s with lastTemperature := temperatureOfCode ln adc }
    { s with temperatureReady := true }

/-- `float getTemperature()` (temperature.cpp:74-76). -/
def getTemperature {K : Type} (s : Temperature K) : K := s.lastTemperature

/-- `bool isTemperatureReady()` (temperature.cpp:78-80). -/
def isTemperatureReady {K : Type} (s : Temperature K) : Bool := s.temperatureReady

/-- A reachable indicator state: booted at 0 ms, `checkSpeedDisplayMode` switches
to the speed display at 2000 ms, then `setLEDSpeedDisplay(p, active)`. -/
def speedDisplayAt (p : Nat) (active : Bool) : Led :=
  setLEDSpeedDisplay p active (checkSpeedDisplayMode 2000 0 ledBoot)

/-- A stand-in for the sine pulse in closed examples: a triangle wave over the
cycle with values in 0..255. -/
def triangleWave (cycleTime period : Nat) : Nat :=
  if 2 * cycleTime < period then (510 * cycleTime) / period
  else (510 * (period - cycleTime)) / period

/-- A reachable button state: after boot and `initButtons` with all inputs
released, one tick at 0 ms that reads all inputs released, and a remote
`setSpeed(40)`. Both step inputs are released, raw and debounced. -/
def idleButtonsAt40 : Buttons :=
  setSpeed 40
    (updateButtons 0 PinLevel.HIGH PinLevel.HIGH PinLevel.HIGH
      (initButtons PinLevel.HIGH PinLevel.HIGH PinLevel.HIGH buttonsBoot))

/-- A trace in which the up button is pressed at 1000 ms and held until 1120 ms
while the down button stays released; `updateButtons` is called every 40 ms. -/
def upHeldTrace : List Tick :=
  [{ now := 1000, trigger := PinLevel.HIGH, up := PinLevel.LOW, down := PinLevel.HIGH },
   { now := 1040, trigger := PinLevel.HIGH, up := PinLevel.LOW, down := PinLevel.HIGH },
   { now := 1080, trigger := PinLevel.HIGH, up := PinLevel.LOW, down := PinLevel.HIGH },
   { now := 1120, trigger := PinLevel.HIGH, up := PinLevel.LOW, down := PinLevel.HIGH }]

/-- A trace in which the up button is pressed at 1000 ms and held until 1200 ms
while the down button changes at every call; `updateButtons` is called every
40 ms. -/
def upHeldDownChatterTrace : List Tick :=
  [{ now := 1000, trigger := PinLevel.HIGH, up := PinLevel.LOW, down := PinLevel.LOW },
   { now := 1040, trigger := PinLevel.HIGH, up := PinLevel.LOW, down := PinLevel.HIGH },
   { now := 1080, trigger := PinLevel.HIGH, up := PinLevel.LOW, down := PinLevel.LOW },
   { now := 1120, trigger := PinLevel.HIGH, up := PinLevel.LOW, down := PinLevel.HIGH },
   { now := 1160, trigger := PinLevel.HIGH, up := PinLevel.LOW, down := PinLevel.LOW },
   { now := 1200, trigger := PinLevel.HIGH, up := PinLevel.LOW, down := PinLevel.HIGH }]

/-- A trace that follows `upHeldTrace`: the up button reads released at 2000 ms,
pressed again at 2020 ms and stays pressed until 2200 ms, the down button stays
released. -/
def upShortReleaseTrace : List Tick :=
  [{ now := 2000, trigger := PinLevel.HIGH, up := PinLevel.HIGH, down := PinLevel.HIGH },
   { now := 2020, trigger := PinLevel.HIGH, up := PinLevel.LOW, down := PinLevel.HIGH },
   { now := 2060, trigger := PinLevel.HIGH, up := PinLevel.LOW, down := PinLevel.HIGH },
   { now := 2100, trigger := PinLevel.HIGH, up := PinLevel.LOW, down := PinLevel.HIGH },
   { now := 2200, trigger := PinLevel.HIGH, up := PinLevel.LOW, down := PinLevel.HIGH }]

/-- A trace in which the up input toggles every 30 ms, faster than the settle
window, while the down button stays released. -/
def upFastToggleTrace : List Tick :=
  [{ now := 1000, trigger := PinLevel.HIGH, up := PinLevel.LOW, down := PinLevel.HIGH },
   { now := 1030, trigger := PinLevel.HIGH, up := PinLevel.HIGH, down := PinLevel.HIGH },
   { now := 1060, trigger := PinLevel.HIGH, up := PinLevel.LOW, down := PinLevel.HIGH },
   { now := 1075, trigger := PinLevel.HIGH, up := PinLevel.LOW, down := PinLevel.HIGH },
   { now := 1090, trigger := PinLevel.HIGH, up := PinLevel.HIGH, down := PinLevel.HIGH }]

/-! ## tachometer/tachometer.cpp

The `float` computations are embedded in exact rational arithmetic. -/

/-- `PULSES_PER_REV` (tachometer.cpp:7). -/
def PULSES_PER_REV : Nat := 1

/-- `UPDATE_INTERVAL` (tachometer.cpp:16), milliseconds. -/
def UPDATE_INTERVAL : Nat := 200

/-- The variables of tachometer.cpp; `fgPulseCount` is a `uint32_t`. -/
structure Tachometer where
  fgPulseCount : Nat
  rpm_cached : ℚ
  rpmReady : Bool
  lastUpdateTime : Nat
  deriving DecidableEq, Repr

/-- The values of the static initialisers of tachometer.cpp. -/
def tachometerBoot : Tachometer :=
  { fgPulseCount := 0, rpm_cached := 0, rpmReady := false, lastUpdateTime := 0 }

/-- The interrupt service routine `onFgPulse()` (tachometer.cpp:19-21). -/
def onFgPulse (s : Tachometer) : Tachometer :=
  { s with fgPulseCount := (s.fgPulseCount + 1) % 4294967296 }

/-- `void initTachometer()` (tachometer.cpp:23-27); `now` is the value of
`millis()`. -/
def initTachometer (now : Nat) (s : Tachometer) : Tachometer :=
  { s with lastUpdateTime := now }

/-- `void updateTachometer()` (tachometer.cpp:29-54); `currentTime` is the value
of `millis()`. The snapshot and reset of the counter run with interrupts
disabled, so they are one step. -/
def updateTachometer (currentTime : Nat) (s : Tachometer) : Tachometer :=
  if subU32 currentTime s.lastUpdateTime < UPDATE_INTERVAL then s
  else
    let dt : Nat := subU32 currentTime s.lastUpdateTime
    let s : Tachometer := { s with lastUpdateTime := currentTime }
    let count : Nat := s.fgPulseCount
    let s : Tachometer := { s with fgPulseCount := 0 }
    let hz : ℚ := (count : ℚ) * 1000 / (dt : ℚ)
    let s : Tachometer := { s with rpm_cached := hz * 60 / (PULSES_PER_REV : ℚ) }
    { s with rpmReady := true }

/-- `float getRPM()` (tachometer.cpp:56-58). -/
def getRPM (s : Tachometer) : ℚ := s.rpm_cached

/-- `bool isRPMReady()` (tachometer.cpp:60-62). -/
def isRPMReady (s : Tachometer) : Bool := s.rpmReady

/-! ## Sequences of button-module calls -/

/-- One call of the button module's mutating interface, with the pin levels and
clock value it reads. -/
inductive ButtonCall where
  | init (trigger up down : PinLevel)
  | update (now : Nat) (trigger up down : PinLevel)
  | speed (v : Nat)
  | motorState (active : Bool)
  deriving DecidableEq, Repr

/-- The state after one call. -/
def ButtonCall.run : ButtonCall → Buttons → Buttons
  | ButtonCall.init t u d, s => initButtons t u d s
  | ButtonCall.update now t u d, s => updateButtons now t u d s
  | ButtonCall.speed v, s => setSpeed v s
  | ButtonCall.motorState a, s => setMotorState a s

/-- The state after a sequence of calls, made in list order. -/
def runButtonCalls : List ButtonCall → Buttons → Buttons
  | [], s => s
  | c :: cs, s => runButtonCalls cs (c.run s)

/-! ## The speed display computation and the head of `loop()` -/

/-- The display value of `updateLED` (led.cpp:103-104): the speed percent
rounded with `((p + 10) / 20) * 20`, stored in a `uint8_t` and capped at 100. -/
def displaySpeedOf (speedDisplayPercent : Nat) : Nat :=
  let displaySpeed : Nat := (((speedDisplayPercent + 10) / 20) * 20) % 256
  if displaySpeed > 100 then 100 else displaySpeed

/-- The number of positions to light (led.cpp:108-115), an `int`. -/
def ledsToLightOf (speedDisplayPercent : Nat) : Int :=
  let displaySpeed : Nat := displaySpeedOf speedDisplayPercent
  let ledsToLight : Int := if displaySpeed = 0 then 0 else ((displaySpeed / 20 : Nat) : Int)
  if ledsToLight > (NUM_LEDS : Int) then (NUM_LEDS : Int) else ledsToLight

/-- The colour `activeColor` of the speed display (led.cpp:118). -/
def activeColorOf (isActive : Bool) : CRGB :=
  if isActive then CRGB.ofBytes 255 0 0 else CRGB.ofBytes 0 0 255

/-- The button, indicator and motor-driver modules together. -/
structure Device where
  buttons : Buttons
  led : Led
  motor : MotorPWM
  deriving DecidableEq, Repr

/-- The driver state after `initMotorPWM`, `setMotorDuty(100)`, `startMotor()`,
`setMotorDuty(0)` and `setMotorDuty(50)`. -/
def motorStaleDuty : MotorPWM :=
  runMotorCalls [MotorCall.setDuty 100, MotorCall.start, MotorCall.setDuty 0,
    MotorCall.setDuty 50] (initMotorPWM motorBoot)

/-- The indicator state during set-up as wifi.cpp:14-16 leaves it (grey colour,
pulse pattern, 2 s cycle) after one `updateLED` at 1500 ms with the stand-in
wave. -/
def ledPulsing : Option Led :=
  updateLED triangleWave 1500
    (setLEDSpeed 2000 (setLEDPattern LedPattern.LED_PULSE (setLEDColor 128 128 128 ledBoot)))

/-- The indicator state in the blink pattern after one `updateLED` at 600 ms. -/
def ledBlinking : Option Led :=
  updateLED triangleWave 600 (setLEDPattern LedPattern.LED_BLINK (setLEDColor 255 0 0 ledBoot))

/-! ## websocket/websocket.cpp

The ArduinoJson document is embedded as the list of the members of its root
object, in document order (empty when the root is not an object). -/

/-- What `webSocketEvent` asks of a JSON value: `str` is a value for which
`is<const char*>()` holds; `int v` one for which `is<int>()` holds, `v` being
`as<int>()`; `float v` one for which `is<int>()` fails and `is<float>()` holds,
`v` being the result of `(int)as<float>()`; `other` any other value. -/
inductive JsonValue where
  | str (s : String)
  | int (v : Int)
  | float (v : Int)
  | other
  deriving DecidableEq, Repr

/-- `doc.containsKey(key)` together with `doc[key]`: the value of the first
member with that key. -/
def jsonLookup (key : String) : List (String × JsonValue) → Option JsonValue
  | [] => none
  | (k, v) :: rest => if k = key then some v else jsonLookup key rest

/-- `void handleMotorHeartbeat()` (motor_pwm.cpp:113-116): no effect. -/
def handleMotorHeartbeat (s : MotorPWM) : MotorPWM := s

/-- A call that `webSocketEvent` makes into the other modules or to the
registered callback. -/
inductive WsCall where
  | setSpeed (speed : Int)
  | setMotorState (active : Bool)
  | handleMotorHeartbeat
  | handleMotorCommand (key : String) (value : Int)
  | commandCallback (key : String) (value : Int)
  deriving DecidableEq, Repr

/-- The device state together with the calls made so far by the event being
handled, in order. -/
structure WsState where
  device : Device
  calls : List WsCall

/-- The clamp of websocket.cpp:78-79 (and :84-85). -/
def clampPercent (speed : Int) : Int :=
  let speed := if speed < 0 then 0 else speed
  if speed > 100 then 100 else speed

/-- The statements of websocket.cpp:76-81 (and :83-87) for a numeric value of a
"speed" member: clamp to 0..100 and call `setSpeed`. -/
def wsSetSpeed (value : Int) (s : WsState) : WsState :=
  let speed := clampPercent value
  { device := { s.device with buttons := setSpeed speed.toNat s.device.buttons },
    calls := s.calls ++ [WsCall.setSpeed speed] }

/-- The statements of websocket.cpp:94-103 (and :105-114) for a numeric value of
another member: call `handleMotorCommand`, then the callback if one is set. -/
def wsMotorCommand (commandCallback : Option (String → Int → Device → Device))
    (key : String) (value : Int) (s : WsState) : WsState :=
  let s : WsState :=
    { device := { s.device with motor := handleMotorCommand key value s.device.motor },
      calls := s.calls ++ [WsCall.handleMotorCommand key value] }
  match commandCallback with
  | some f => { device := f key value s.device,
                calls := s.calls ++ [WsCall.commandCallback key value] }
  | none => s

/-- The body of the loop over the members (websocket.cpp:70-116) for one
member. -/
def wsHandlePair (commandCallback : Option (String → Int → Device → Device))
    (pair : String × JsonValue) (s : WsState) : WsState :=
  let key := pair.1
  if key = "speed" then
    match pair.2 with
    | JsonValue.int v => wsSetSpeed v s
    | JsonValue.float v => wsSetSpeed v s
    | _ => s
  else
    match pair.2 with
    | JsonValue.int v => wsMotorCommand commandCallback key v s
    | JsonValue.float v => wsMotorCommand commandCallback key v s
    | _ => s

/-- The loop `for (JsonPair pair : obj)` (websocket.cpp:70-116). -/
def wsLoop (commandCallback : Option (String → Int → Device → Device)) :
    List (String × JsonValue) → WsState → WsState
  | [], s => s
  | pair :: rest, s => wsLoop commandCallback rest (wsHandlePair commandCallback pair s)

/-- The `WStype_TEXT` case of `webSocketEvent` (websocket.cpp:38-118) for a
payload that `deserializeJson` parsed into `doc`; `commandCallback` is the
registered callback (`nullptr` unless `setWebSocketCommandCallback` was called). -/
def webSocketText (commandCallback : Option (String → Int → Device → Device))
    (doc : List (String × JsonValue)) (d : Device) : WsState :=
  let s : WsState := { device := d, calls := [] }
  match jsonLookup "command" doc with
  | some (JsonValue.str command) =>
    if command = "motor_start" then
      { device := { s.device with buttons := setMotorState true s.device.buttons },
        calls := s.calls ++ [WsCall.setMotorState true] }
    else if command = "motor_stop" then
      { device := { s.device with buttons := setMotorState false s.device.buttons },
        calls := s.calls ++ [WsCall.setMotorState false] }
    else if command = "heartbeat" then
      { device := { s.device with motor := handleMotorHeartbeat s.device.motor },
        calls := s.calls ++ [WsCall.handleMotorHeartbeat] }
    else wsLoop commandCallback doc s
  | _ => wsLoop commandCallback doc s

/-- The kinds of event `webSocketEvent` distinguishes; a text event carries the
result of `deserializeJson`, `none` for a parse error. -/
inductive WsEvent where
  | disconnected
  | connected
  | text (parsed : Option (List (String × JsonValue)))
  | otherType

/-- `void webSocketEvent(...)` (websocket.cpp:24-123). -/
def webSocketEvent (commandCallback : Option (String → Int → Device → Device))
    (event : WsEvent) (d : Device) : WsState :=
  match event with
  | WsEvent.text (some doc) => webSocketText commandCallback doc d
  | _ => { device := d, calls := [] }

/-- Whether the message is handled by the command check of websocket.cpp:52-66,
which returns before the members are processed. -/
def isCommandMessage (doc : List (String × JsonValue)) : Bool :=
  match jsonLookup "command" doc with
  | some (JsonValue.str command) =>
    command = "motor_start" || command = "motor_stop" || command = "heartbeat"
  | _ => false

/-- The clamped value of a member that is a numeric "speed" member. -/
def numericSpeed (pair : String × JsonValue) : Option Int :=
  if pair.1 = "speed" then
    match pair.2 with
    | JsonValue.int v => some (clampPercent v)
    | JsonValue.float v => some (clampPercent v)
    | _ => none
  else none

/-- The argument of a `setSpeed` call. -/
def WsCall.speedArg : WsCall → Option Int
  | WsCall.setSpeed v => some v
  | _ => none

/-- A device in which the buttons are idle at speed 40, the speed display is on
and the motor driver is initialised. -/
def deviceIdleAt40 : Device :=
  { buttons := idleButtonsAt40, led := speedDisplayAt 40 false, motor := initMotorPWM motorBoot }

/-- Whether a call is `handleMotorCommand` with the key "speed". -/
def WsCall.isLegacySpeed : WsCall → Bool
  | WsCall.handleMotorCommand key _ => key = "speed"
  | _ => false

/-- The message `{"command": "motor_stop", "speed": 80}`. -/
def stopWithSpeedMessage : List (String × JsonValue) :=
  [("command", JsonValue.str "motor_stop"), ("speed", JsonValue.int 80)]

/-- A trace in which the up button is pressed at 1000 ms and held until 1070 ms
while the down button, released at first, is pressed at 1010 ms and then held;
`updateButtons` is called at 1000, 1010, 1040 and 1070 ms. -/
def upHeldDownChangesOnceTrace : List Tick :=
  [{ now := 1000, trigger := PinLevel.HIGH, up := PinLevel.LOW, down := PinLevel.HIGH },
   { now := 1010, trigger := PinLevel.HIGH, up := PinLevel.LOW, down := PinLevel.LOW },
   { now := 1040, trigger := PinLevel.HIGH, up := PinLevel.LOW, down := PinLevel.LOW },
   { now := 1070, trigger := PinLevel.HIGH, up := PinLevel.LOW, down := PinLevel.LOW }]

/-! ## Motor driver: lemmas -/

theorem motorInv_initMotorPWM (s : MotorPWM) : MotorInv (initMotorPWM s) := by
  simp [MotorInv, initMotorPWM, ledcDetachPin, pinModeOutput, digitalWrite]

theorem motorInv_setMotorDuty (v : Int) (s : MotorPWM) (h : MotorInv s) :
    MotorInv (setMotorDuty v s) := by
  obtain ⟨d, r, pa, la, po, pl, ld⟩ := s
  simp only [MotorInv] at h
  obtain ⟨h1, h2, h3, h4, h5⟩ := h
  subst h1 h2 h3
  unfold setMotorDuty MotorInv
  simp only [ledcDetachPin, ledcAttachPin, pinModeOutput, digitalWrite, ledcWrite]
  split_ifs <;> simp_all

theorem motorInv_startMotor (s : MotorPWM) (h : MotorInv s) : MotorInv (startMotor s) := by
  obtain ⟨d, r, pa, la, po, pl, ld⟩ := s
  simp only [MotorInv] at h
  obtain ⟨h1, h2, h3, h4, h5⟩ := h
  subst h1 h2 h3
  unfold startMotor MotorInv
  simp only [ledcDetachPin, ledcAttachPin, pinModeOutput, digitalWrite, ledcWrite]
  split_ifs <;> simp_all
  omega

theorem motorInv_stopMotor (s : MotorPWM) (h : MotorInv s) : MotorInv (stopMotor s) := by
  obtain ⟨d, r, pa, la, po, pl, ld⟩ := s
  simp only [MotorInv] at h
  obtain ⟨h1, h2, h3, h4, h5⟩ := h
  subst h1 h2 h3
  unfold stopMotor MotorInv
  simp only [ledcDetachPin, ledcAttachPin, pinModeOutput, digitalWrite, ledcWrite]
  split_ifs <;> simp_all

theorem motorInv_run (c : MotorCall) (s : MotorPWM) (h : MotorInv s) :
    MotorInv (c.run s) := by
  cases c with
  | setDuty v => exact motorInv_setMotorDuty v s h
  | start => exact motorInv_startMotor s h
  | stop => exact motorInv_stopMotor s h

theorem motorInv_runMotorCalls (cs : List MotorCall) (s : MotorPWM) (h : MotorInv s) :
    MotorInv (runMotorCalls cs s) := by
  induction cs generalizing s with
  | nil => exact h
  | cons c cs ih => exact ih (c.run s) (motorInv_run c s h)

theorem setMotorDuty_duty (v : Int) (s : MotorPWM) :
    (setMotorDuty v s).duty = clampDuty v := by
  unfold setMotorDuty clampDuty
  simp only [ledcDetachPin, ledcAttachPin, pinModeOutput, digitalWrite, ledcWrite]
  split_ifs <;> simp_all <;> omega

theorem startMotor_duty (s : MotorPWM) : (startMotor s).duty = s.duty := by
  unfold startMotor
  simp only [ledcAttachPin, ledcWrite]
  split_ifs <;> rfl

theorem stopMotor_duty (s : MotorPWM) : (stopMotor s).duty = s.duty := by
  unfold stopMotor
  simp only [ledcDetachPin, pinModeOutput, digitalWrite, ledcWrite]
  split_ifs <;> rfl

theorem startMotor_running (s : MotorPWM) : (startMotor s).running = true := by
  unfold startMotor
  simp only [ledcAttachPin, ledcWrite]
  split_ifs <;> rfl

theorem stopMotor_running (s : MotorPWM) : (stopMotor s).running = false := by
  unfold stopMotor
  simp only [ledcDetachPin, pinModeOutput, digitalWrite, ledcWrite]
  split_ifs <;> rfl

/-! ## Motor driver: claims -/

/-- C1: after `initMotorPWM` and any finite sequence of `setMotorDuty` (any
integer argument), `startMotor` and `stopMotor` calls, if the stored duty is 0
then the PWM peripheral is detached from the pin (both the `pinAttached` flag
and the peripheral itself) and the pin is an output whose last written level is
`LOW`. Every prefix of a call sequence is a call sequence, so this holds after
each call. -/
theorem duty_zero_pin_detached_low (s0 : MotorPWM) (calls : List MotorCall)
    (h : getMotorDuty (runMotorCalls calls (initMotorPWM s0)) = 0) :
    (runMotorCalls calls (initMotorPWM s0)).pinAttached = false ∧
      (runMotorCalls calls (initMotorPWM s0)).ledcAttached = false ∧
      (runMotorCalls calls (initMotorPWM s0)).pinOutput = true ∧
      (runMotorCalls calls (initMotorPWM s0)).pinLevel = PinLevel.LOW := by
  have hinv := motorInv_runMotorCalls calls _ (motorInv_initMotorPWM s0)
  obtain ⟨h1, h2, h3, h4, _⟩ := hinv
  have hpa := h4 h
  exact ⟨hpa, by rw [← h1]; exact hpa, h3, h2⟩

theorem duty_zero_pin_detached_low_witness :
    getMotorDuty (runMotorCalls
        [MotorCall.setDuty 100, MotorCall.start, MotorCall.setDuty (-3)]
        (initMotorPWM motorBoot)) = 0 ∧
      ((runMotorCalls [MotorCall.setDuty 100, MotorCall.start, MotorCall.setDuty (-3)]
          (initMotorPWM motorBoot)).pinAttached = false ∧
        (runMotorCalls [MotorCall.setDuty 100, MotorCall.start, MotorCall.setDuty (-3)]
          (initMotorPWM motorBoot)).ledcAttached = false ∧
        (runMotorCalls [MotorCall.setDuty 100, MotorCall.start, MotorCall.setDuty (-3)]
          (initMotorPWM motorBoot)).pinOutput = true ∧
        (runMotorCalls [MotorCall.setDuty 100, MotorCall.start, MotorCall.setDuty (-3)]
          (initMotorPWM motorBoot)).pinLevel = PinLevel.LOW) :=
  ⟨by decide, duty_zero_pin_detached_low motorBoot
    [MotorCall.setDuty 100, MotorCall.start, MotorCall.setDuty (-3)] (by decide)⟩

/-- C2: after `initMotorPWM` and any finite sequence of `setMotorDuty`,
`startMotor` and `stopMotor` calls, if the stored duty is greater than 0 and
`running` is true then the PWM peripheral is attached to the pin (flag and
peripheral) and the value most recently written to the PWM channel equals the
stored duty. -/
theorem running_duty_attached_driving (s0 : MotorPWM) (calls : List MotorCall)
    (hd : 0 < getMotorDuty (runMotorCalls calls (initMotorPWM s0)))
    (hr : isMotorRunning (runMotorCalls calls (initMotorPWM s0)) = true) :
    (runMotorCalls calls (initMotorPWM s0)).pinAttached = true ∧
      (runMotorCalls calls (initMotorPWM s0)).ledcAttached = true ∧
      (runMotorCalls calls (initMotorPWM s0)).ledcDuty =
        getMotorDuty (runMotorCalls calls (initMotorPWM s0)) := by
  have hinv := motorInv_runMotorCalls calls _ (motorInv_initMotorPWM s0)
  obtain ⟨h1, _, _, _, h5⟩ := hinv
  obtain ⟨hpa, hw⟩ := h5 hd hr
  exact ⟨hpa, by rw [← h1]; exact hpa, hw⟩

theorem running_duty_attached_driving_witness :
    0 < getMotorDuty (runMotorCalls
        [MotorCall.start, MotorCall.setDuty 100, MotorCall.stop, MotorCall.setDuty 70,
          MotorCall.start] (initMotorPWM motorBoot)) ∧
      isMotorRunning (runMotorCalls
        [MotorCall.start, MotorCall.setDuty 100, MotorCall.stop, MotorCall.setDuty 70,
          MotorCall.start] (initMotorPWM motorBoot)) = true ∧
      ((runMotorCalls
        [MotorCall.start, MotorCall.setDuty 100, MotorCall.stop, MotorCall.setDuty 70,
          MotorCall.start] (initMotorPWM motorBoot)).pinAttached = true ∧
      (runMotorCalls
        [MotorCall.start, MotorCall.setDuty 100, MotorCall.stop, MotorCall.setDuty 70,
          MotorCall.start] (initMotorPWM motorBoot)).ledcAttached = true ∧
      (runMotorCalls
        [MotorCall.start, MotorCall.setDuty 100, MotorCall.stop, MotorCall.setDuty 70,
          MotorCall.start] (initMotorPWM motorBoot)).ledcDuty =
        getMotorDuty (runMotorCalls
        [MotorCall.start, MotorCall.setDuty 100, MotorCall.stop, MotorCall.setDuty 70,
          MotorCall.start] (initMotorPWM motorBoot))) :=
  ⟨by decide, by decide, running_duty_attached_driving motorBoot
    [MotorCall.start, MotorCall.setDuty 100, MotorCall.stop, MotorCall.setDuty 70,
      MotorCall.start] (by decide) (by decide)⟩

/-- C6: `setMotorDuty` never starts the motor: in every driver state (so in
every state reached by calls after `initMotorPWM`) and for every integer `v`, if
`isMotorRunning()` is false before `setMotorDuty(v)` it is false after it, and
the stored duty after the call is `v` clamped to 0..255. -/
theorem setMotorDuty_never_starts (v : Int) (s : MotorPWM)
    (h : isMotorRunning s = false) :
    isMotorRunning (setMotorDuty v s) = false ∧
      getMotorDuty (setMotorDuty v s) = max 0 (min v 255) := by
  refine ⟨?_, setMotorDuty_duty v s⟩
  unfold isMotorRunning at h ⊢
  unfold setMotorDuty
  simp only [ledcDetachPin, ledcAttachPin, pinModeOutput, digitalWrite, ledcWrite]
  split_ifs <;> simp_all

theorem setMotorDuty_never_starts_witness :
    isMotorRunning (runMotorCalls [MotorCall.setDuty 100, MotorCall.start, MotorCall.stop]
        (initMotorPWM motorBoot)) = false ∧
      (isMotorRunning (setMotorDuty 300
          (runMotorCalls [MotorCall.setDuty 100, MotorCall.start, MotorCall.stop]
            (initMotorPWM motorBoot))) = false ∧
        getMotorDuty (setMotorDuty 300
          (runMotorCalls [MotorCall.setDuty 100, MotorCall.start, MotorCall.stop]
            (initMotorPWM motorBoot))) = max 0 (min 300 255)) :=
  ⟨by decide, setMotorDuty_never_starts 300
    (runMotorCalls [MotorCall.setDuty 100, MotorCall.start, MotorCall.stop]
      (initMotorPWM motorBoot)) (by decide)⟩

/-- C7: in every driver state, `startMotor` and `stopMotor` leave the stored
duty unchanged: `getMotorDuty()` returns the same value before and after either
call. -/
theorem start_stop_keep_duty (s : MotorPWM) :
    getMotorDuty (startMotor s) = getMotorDuty s ∧
      getMotorDuty (stopMotor s) = getMotorDuty s :=
  ⟨startMotor_duty s, stopMotor_duty s⟩

/-- C8, as stated, fails: in the reachable state where the motor runs at duty
100, `handleMotorCommand("speed", 0)` stops the motor but the stored duty is
still 100, not the clamped value 0. -/
theorem handleMotorCommand_speed_zero_keeps_duty :
    getMotorDuty motorRunningAt100 = 100 ∧
      getMotorDuty (handleMotorCommand "speed" 0 motorRunningAt100) = 100 ∧
      getMotorDuty (handleMotorCommand "speed" 0 motorRunningAt100) ≠ max 0 (min 0 255) ∧
      isMotorRunning (handleMotorCommand "speed" 0 motorRunningAt100) = false := by
  decide

/-- C8, amended: for every integer `v` and every prior driver state, after
`handleMotorCommand("speed", v)` the motor is running if and only if `v`
clamped to 0..255 is greater than 0; the stored duty equals the clamped value
when that is greater than 0, and is left as it was when the clamped value is 0
(that branch only calls `stopMotor`). -/
theorem handleMotorCommand_speed (v : Int) (s : MotorPWM) :
    (isMotorRunning (handleMotorCommand "speed" v s) = true ↔ 0 < max 0 (min v 255)) ∧
      getMotorDuty (handleMotorCommand "speed" v s) =
        if max 0 (min v 255) = 0 then getMotorDuty s else max 0 (min v 255) := by
  have hc : ∀ x : Int, (if (if x < 0 then 0 else x) > 255 then 255
      else (if x < 0 then 0 else x)) = max 0 (min x 255) := by
    intro x
    split_ifs <;> omega
  unfold handleMotorCommand isMotorRunning getMotorDuty
  simp only [if_true, hc]
  by_cases h0 : max 0 (min v 255) = 0
  · simp only [h0, if_true, stopMotor_running, stopMotor_duty]
    simp
  · have hpos : 0 < max 0 (min v 255) := by omega
    simp only [h0, if_false, startMotor_running, startMotor_duty, setMotorDuty_duty, clampDuty,
      hpos]
    simp

/-! ## Button arbiter: lemmas -/

theorem updateTrigger_eq (tr : Bool) (s : Buttons) :
    updateTrigger tr s =
      { s with
        triggerState := tr
        triggerLastState := tr
        motorActive := if tr then true else if s.triggerLastState then false else s.motorActive
        mosfetLevel := if (if tr then true else if s.triggerLastState then false
          else s.motorActive) then PinLevel.HIGH else PinLevel.LOW } := by
  obtain ⟨sp, ma, ts, tl, us, ul, ds, dl, ld, ml⟩ := s
  cases tr <;> cases tl <;> cases ma <;> rfl

theorem updateDebounceTime_eq (now : Nat) (u d : Bool) (s : Buttons) :
    updateDebounceTime now u d s =
      { s with lastDebounceTime :=
          if u = s.upLastState ∧ d = s.downLastState then s.lastDebounceTime
          else now % 4294967296 } := by
  obtain ⟨sp, ma, ts, tl, us, ul, ds, dl, ld, ml⟩ := s
  cases u <;> cases d <;> cases ul <;> cases dl <;> rfl

theorem updateSteps_eq (now : Nat) (u d : Bool) (s : Buttons) :
    updateSteps now u d s =
      if subU32 now s.lastDebounceTime > DEBOUNCE_DELAY then
        { s with
          speedPercent := (stepDown d (stepUp u s)).speedPercent
          upState := u
          downState := d }
      else s := by
  obtain ⟨sp, ma, ts, tl, us, ul, ds, dl, ld, ml⟩ := s
  unfold updateSteps
  split_ifs
  · unfold stepDown stepUp
    simp only
    split_ifs <;> rfl
  · rfl

theorem updateButtons_motorActive (now : Nat) (t u d : PinLevel) (s : Buttons) :
    (updateButtons now t u d s).motorActive =
      if logicalNot t.toInt then true else if s.triggerLastState then false
        else s.motorActive := by
  unfold updateButtons
  simp only [updateTrigger_eq, updateDebounceTime_eq, updateSteps_eq]
  split_ifs <;> rfl

theorem updateButtons_triggerLastState (now : Nat) (t u d : PinLevel) (s : Buttons) :
    (updateButtons now t u d s).triggerLastState = logicalNot t.toInt := by
  unfold updateButtons
  simp only [updateTrigger_eq, updateDebounceTime_eq, updateSteps_eq]
  split_ifs <;> rfl

theorem setSpeed_triggerLastState (v : Nat) (s : Buttons) :
    (setSpeed v s).triggerLastState = s.triggerLastState := by
  unfold setSpeed
  simp only
  split_ifs <;> rfl

theorem setMotorState_triggerLastState (a : Bool) (s : Buttons) :
    (setMotorState a s).triggerLastState = s.triggerLastState := by
  unfold setMotorState
  simp only
  split_ifs <;> rfl

theorem setMotorState_motorActive (a : Bool) (s : Buttons) :
    (setMotorState a s).motorActive = a := by
  unfold setMotorState
  simp only
  split_ifs <;> rfl

theorem runRemoteCalls_triggerLastState (cs : List RemoteCall) (s : Buttons) :
    (runRemoteCalls cs s).triggerLastState = s.triggerLastState := by
  induction cs generalizing s with
  | nil => rfl
  | cons c cs ih =>
    rw [runRemoteCalls, ih]
    cases c with
    | speed v => exact setSpeed_triggerLastState v s
    | motorState a => exact setMotorState_triggerLastState a s

theorem runIdleTicks_motorActive (ts : List IdleTick) (s : Buttons)
    (h : s.triggerLastState = false) :
    (runIdleTicks ts s).motorActive = s.motorActive := by
  induction ts generalizing s with
  | nil => rfl
  | cons t ts ih =>
    rw [runIdleTicks, ih]
    · rw [updateButtons_motorActive, h]; rfl
    · rw [updateButtons_triggerLastState]; rfl

theorem stepUp_eq (u : Bool) (s : Buttons) :
    stepUp u s =
      { s with speedPercent :=
          if u = true ∧ s.upState = false then
            (if (s.speedPercent + 20) % 256 > 100 then 100 else (s.speedPercent + 20) % 256)
          else s.speedPercent } := by
  obtain ⟨sp, ma, ts, tl, us, ul, ds, dl, ld, ml⟩ := s
  unfold stepUp
  cases u <;> cases us <;> simp
  split_ifs <;> rfl

theorem stepDown_eq (d : Bool) (s : Buttons) :
    stepDown d s =
      { s with speedPercent :=
          if d = true ∧ s.downState = false then
            (if s.speedPercent ≥ 20 then (s.speedPercent - 20) % 256 else 0)
          else s.speedPercent } := by
  obtain ⟨sp, ma, ts, tl, us, ul, ds, dl, ld, ml⟩ := s
  unfold stepDown
  cases d <;> cases ds <;> simp
  split_ifs <;> rfl

theorem updateButtons_speedPercent (now : Nat) (t u d : PinLevel) (s : Buttons) :
    (updateButtons now t u d s).speedPercent =
      if stepsAccepted now u d s then
        (stepDown (logicalNot d.toInt) (stepUp (logicalNot u.toInt) s)).speedPercent
      else s.speedPercent := by
  obtain ⟨sp, ma, ts, tl, us, ul, ds, dl, ld, ml⟩ := s
  unfold updateButtons stepsAccepted
  simp only [updateTrigger_eq, updateDebounceTime_eq, updateSteps_eq, stepUp_eq, stepDown_eq]
  have hz : ¬ subU32 now (now % 4294967296) > DEBOUNCE_DELAY := by
    unfold subU32 DEBOUNCE_DELAY
    omega
  by_cases hu : logicalNot u.toInt = ul <;>
    by_cases hd : logicalNot d.toInt = dl <;>
    by_cases ht : subU32 now ld > DEBOUNCE_DELAY <;>
    simp [hu, hd, ht, hz]

/-! ## Button arbiter: claims -/

/-- C3: in every button-module state, for every up/down reading and clock
value, a call of `updateButtons` in which the trigger reads pressed (pin `LOW`)
leaves `isMotorActive()` true; in particular when the state was just produced
by `setMotorState(false)`. -/
theorem trigger_pressed_forces_active (now : Nat) (up down : PinLevel) (s : Buttons) :
    isMotorActive (updateButtons now PinLevel.LOW up down s) = true ∧
      isMotorActive (updateButtons now PinLevel.LOW up down (setMotorState false s)) = true := by
  unfold isMotorActive
  constructor <;> rw [updateButtons_motorActive] <;> rfl

/-- C4: if the previous `updateButtons` call read the trigger pressed, the next
`updateButtons` call that reads the trigger released leaves `isMotorActive()`
false, whatever `setMotorState` / `setSpeed` calls were made in between; and
trigger held, then `setSpeed(40)`, then trigger released gives active = true,
speed = 40, active = false. -/
theorem trigger_release_forces_inactive (s : Buttons) (now0 : Nat) (up0 down0 : PinLevel)
    (remote : List RemoteCall) (now1 : Nat) (up1 down1 : PinLevel) :
    isMotorActive (updateButtons now1 PinLevel.HIGH up1 down1
        (runRemoteCalls remote (updateButtons now0 PinLevel.LOW up0 down0 s))) = false ∧
      (isMotorActive (updateButtons now0 PinLevel.LOW up0 down0 s) = true ∧
        getSpeed (setSpeed 40 (updateButtons now0 PinLevel.LOW up0 down0 s)) = 40 ∧
        isMotorActive (updateButtons now1 PinLevel.HIGH up1 down1
          (setSpeed 40 (updateButtons now0 PinLevel.LOW up0 down0 s))) = false) := by
  unfold isMotorActive getSpeed
  refine ⟨?_, ?_, ?_, ?_⟩
  · rw [updateButtons_motorActive, runRemoteCalls_triggerLastState,
      updateButtons_triggerLastState]
    rfl
  · rw [updateButtons_motorActive]
    rfl
  · rfl
  · rw [updateButtons_motorActive, setSpeed_triggerLastState, updateButtons_triggerLastState]
    rfl

/-- C5: if the previous `updateButtons` call read the trigger released (any
remote calls may follow it), a call of `updateButtons` in which the trigger
again reads released leaves `isMotorActive()` unchanged for every up/down
reading and clock value; a value set by `setMotorState(a)` persists across any
number of such ticks; and the active flag after `updateButtons` does not depend
on the step inputs or the clock. -/
theorem trigger_released_keeps_active (s : Buttons) (now0 : Nat) (up0 down0 : PinLevel)
    (remote : List RemoteCall) (now : Nat) (up down : PinLevel) (a : Bool)
    (ticks : List IdleTick) (s1 : Buttons) (trigger : PinLevel) (now2 : Nat)
    (up2 down2 : PinLevel) :
    isMotorActive (updateButtons now PinLevel.HIGH up down
        (runRemoteCalls remote (updateButtons now0 PinLevel.HIGH up0 down0 s))) =
      isMotorActive (runRemoteCalls remote (updateButtons now0 PinLevel.HIGH up0 down0 s)) ∧
    isMotorActive (runIdleTicks ticks (setMotorState a
        (runRemoteCalls remote (updateButtons now0 PinLevel.HIGH up0 down0 s)))) = a ∧
    isMotorActive (updateButtons now trigger up down s1) =
      isMotorActive (updateButtons now2 trigger up2 down2 s1) := by
  unfold isMotorActive
  have hl : (runRemoteCalls remote
      (updateButtons now0 PinLevel.HIGH up0 down0 s)).triggerLastState = false := by
    rw [runRemoteCalls_triggerLastState, updateButtons_triggerLastState]
    rfl
  refine ⟨?_, ?_, ?_⟩
  · rw [updateButtons_motorActive, hl]
    rfl
  · rw [runIdleTicks_motorActive, setMotorState_motorActive]
    rw [setMotorState_triggerLastState]
    exact hl
  · rw [updateButtons_motorActive, updateButtons_motorActive]

/-- C9: for every 8-bit value `v`, after `setSpeed(v)` `getSpeed()` returns
exactly `v` when `v ≤ 100` and 100 when `v > 100`; the stored value is not
rounded to a 20 % step. -/
theorem setSpeed_exact (v : Nat) (s : Buttons) (h : v < 256) :
    getSpeed (setSpeed v s) = if v ≤ 100 then v else 100 := by
  unfold getSpeed setSpeed
  simp only [Nat.mod_eq_of_lt h]
  split_ifs <;> simp_all
  omega

theorem setSpeed_exact_witness :
    47 < 256 ∧ getSpeed (setSpeed 47 buttonsBoot) = if 47 ≤ 100 then 47 else 100 :=
  ⟨by decide, setSpeed_exact 47 buttonsBoot (by decide)⟩

/-- C10, as stated, fails: in the reachable state `bothPressedAt100` (speed 100,
both step buttons read pressed since 1000 ms) the call of `updateButtons` at
1051 ms accepts the press edges of both buttons, so it is neither an up edge
alone nor a down edge alone, and it changes the speed from 100 to 80. -/
theorem both_edges_change_speed :
    getSpeed bothPressedAt100 = 100 ∧
      upEdge 1051 PinLevel.LOW PinLevel.LOW bothPressedAt100 = true ∧
      downEdge 1051 PinLevel.LOW PinLevel.LOW bothPressedAt100 = true ∧
      getSpeed (updateButtons 1051 PinLevel.HIGH PinLevel.LOW PinLevel.LOW bothPressedAt100)
        = 80 ∧
      getSpeed (updateButtons 1051 PinLevel.HIGH PinLevel.LOW PinLevel.LOW bothPressedAt100)
        ≠ getSpeed bothPressedAt100 := by
  decide

/-- C10, amended: for every current speed `s` in 0..100, a call of
`updateButtons` that accepts a press edge of the up button alone changes the
speed to `min (s + 20) 100`; one that accepts a press edge of the down button
alone changes it to `max (s - 20) 0` (truncated subtraction); one that accepts
the press edges of both buttons applies the up step and then the down step,
giving `min (s + 20) 100 - 20`; a call that accepts no press edge leaves the
speed unchanged. -/
theorem updateButtons_speed_steps (now : Nat) (trigger up down : PinLevel) (s : Buttons)
    (h : getSpeed s ≤ 100) :
    getSpeed (updateButtons now trigger up down s) =
      if upEdge now up down s then
        if downEdge now up down s then min (getSpeed s + 20) 100 - 20
        else min (getSpeed s + 20) 100
      else
        if downEdge now up down s then getSpeed s - 20
        else getSpeed s := by
  unfold getSpeed at h ⊢
  rw [updateButtons_speedPercent]
  unfold upEdge downEdge
  obtain ⟨sp, ma, ts, tl, us, ul, ds, dl, ld, ml⟩ := s
  simp only at h
  by_cases ha : stepsAccepted now up down
      ⟨sp, ma, ts, tl, us, ul, ds, dl, ld, ml⟩ = true
  · simp only [ha, stepUp_eq, stepDown_eq, if_true, Bool.true_and]
    cases logicalNot up.toInt <;> cases logicalNot down.toInt <;> cases us <;> cases ds <;>
      simp <;> split_ifs <;> omega
  · simp [ha]

theorem updateButtons_speed_steps_witness :
    getSpeed upPressedAt90 ≤ 100 ∧
      getSpeed (updateButtons 1051 PinLevel.HIGH PinLevel.LOW PinLevel.HIGH upPressedAt90) =
        if upEdge 1051 PinLevel.LOW PinLevel.HIGH upPressedAt90 then
          if downEdge 1051 PinLevel.LOW PinLevel.HIGH upPressedAt90 then
            min (getSpeed upPressedAt90 + 20) 100 - 20
          else min (getSpeed upPressedAt90 + 20) 100
        else
          if downEdge 1051 PinLevel.LOW PinLevel.HIGH upPressedAt90 then
            getSpeed upPressedAt90 - 20
          else getSpeed upPressedAt90 :=
  ⟨by decide, updateButtons_speed_steps 1051 PinLevel.HIGH PinLevel.LOW PinLevel.HIGH
    upPressedAt90 (by decide)⟩

/-! ## Button traces: lemmas -/

theorem subU32_self_mod (now : Nat) : subU32 now (now % 4294967296) = 0 := by
  unfold subU32
  omega

theorem subU32_congr_right (a b c : Nat) (h : b % 4294967296 = c % 4294967296) :
    subU32 a b = subU32 a c := by
  unfold subU32
  rw [h]

theorem updateButtons_upLastState (now : Nat) (t u d : PinLevel) (s : Buttons) :
    (updateButtons now t u d s).upLastState = logicalNot u.toInt := by
  unfold updateButtons
  rfl

theorem updateButtons_downLastState (now : Nat) (t u d : PinLevel) (s : Buttons) :
    (updateButtons now t u d s).downLastState = logicalNot d.toInt := by
  unfold updateButtons
  rfl

theorem updateButtons_lastDebounceTime (now : Nat) (t u d : PinLevel) (s : Buttons) :
    (updateButtons now t u d s).lastDebounceTime =
      if logicalNot u.toInt = s.upLastState ∧ logicalNot d.toInt = s.downLastState then
        s.lastDebounceTime
      else now % 4294967296 := by
  obtain ⟨sp, ma, ts, tl, us, ul, ds, dl, ld, ml⟩ := s
  unfold updateButtons
  simp only [updateTrigger_eq, updateDebounceTime_eq, updateSteps_eq]
  split_ifs <;> rfl

theorem updateButtons_upState (now : Nat) (t u d : PinLevel) (s : Buttons) :
    (updateButtons now t u d s).upState =
      if stepsAccepted now u d s then logicalNot u.toInt else s.upState := by
  obtain ⟨sp, ma, ts, tl, us, ul, ds, dl, ld, ml⟩ := s
  unfold updateButtons stepsAccepted
  simp only [updateTrigger_eq, updateDebounceTime_eq, updateSteps_eq]
  have hz : ¬ subU32 now (now % 4294967296) > DEBOUNCE_DELAY := by
    rw [subU32_self_mod]; exact Nat.not_lt_zero _
  by_cases hu : logicalNot u.toInt = ul <;>
    by_cases hd : logicalNot d.toInt = dl <;>
    by_cases ht : subU32 now ld > DEBOUNCE_DELAY <;>
    simp [hu, hd, ht, hz]

theorem updateButtons_downState (now : Nat) (t u d : PinLevel) (s : Buttons) :
    (updateButtons now t u d s).downState =
      if stepsAccepted now u d s then logicalNot d.toInt else s.downState := by
  obtain ⟨sp, ma, ts, tl, us, ul, ds, dl, ld, ml⟩ := s
  unfold updateButtons stepsAccepted
  simp only [updateTrigger_eq, updateDebounceTime_eq, updateSteps_eq]
  have hz : ¬ subU32 now (now % 4294967296) > DEBOUNCE_DELAY := by
    rw [subU32_self_mod]; exact Nat.not_lt_zero _
  by_cases hu : logicalNot u.toInt = ul <;>
    by_cases hd : logicalNot d.toInt = dl <;>
    by_cases ht : subU32 now ld > DEBOUNCE_DELAY <;>
    simp [hu, hd, ht, hz]

theorem stepsAccepted_false_of_within (s : Buttons) (t : Tick) (lc : Nat)
    (hlc : s.lastDebounceTime % 4294967296 = lc % 4294967296)
    (h : subU32 t.now
        (if (logicalNot t.up.toInt != s.upLastState || logicalNot t.down.toInt != s.downLastState)
          = true then t.now else lc) ≤ DEBOUNCE_DELAY) :
    stepsAccepted t.now t.up t.down s = false := by
  unfold stepsAccepted
  by_cases hu : logicalNot t.up.toInt = s.upLastState
  · by_cases hd : logicalNot t.down.toInt = s.downLastState
    · simp only [hu, hd, bne_self_eq_false, Bool.or_self, Bool.false_eq_true, if_false] at h
      rw [subU32_congr_right _ _ _ hlc]
      simp [hu, hd]
      exact h
    · simp [hd]
  · simp [hu]

theorem no_step_within_settle (ticks : List Tick) (s : Buttons) (lc : Nat)
    (hlc : s.lastDebounceTime % 4294967296 = lc % 4294967296)
    (h : togglesWithinSettle s.upLastState s.downLastState lc ticks = true) :
    (∀ v ∈ speedsAfter ticks s, v = getSpeed s) ∧
      stepCount StepInput.up ticks s = 0 ∧ stepCount StepInput.down ticks s = 0 := by
  induction ticks generalizing s lc with
  | nil => simp [speedsAfter, stepCount]
  | cons t ts ih =>
    unfold togglesWithinSettle at h
    simp only [Bool.and_eq_true, decide_eq_true_eq] at h
    obtain ⟨hw, hrest⟩ := h
    have hacc := stepsAccepted_false_of_within s t lc hlc hw
    have hsp : getSpeed (updateButtons t.now t.trigger t.up t.down s) = getSpeed s := by
      unfold getSpeed
      rw [updateButtons_speedPercent, hacc]
      rfl
    have hnext := ih (updateButtons t.now t.trigger t.up t.down s)
      (if (logicalNot t.up.toInt != s.upLastState ||
          logicalNot t.down.toInt != s.downLastState) = true then t.now else lc)
      (by
        rw [updateButtons_lastDebounceTime]
        by_cases hu : logicalNot t.up.toInt = s.upLastState
        · by_cases hd : logicalNot t.down.toInt = s.downLastState
          · simp [hu, hd, hlc]
          · simp [hd]
        · simp [hu])
      (by
        rw [updateButtons_upLastState, updateButtons_downLastState]
        exact hrest)
    obtain ⟨h1, h2, h3⟩ := hnext
    refine ⟨?_, ?_, ?_⟩
    · intro v hv
      unfold speedsAfter at hv
      rcases List.mem_cons.mp hv with hv | hv
      · rw [hv, hsp]
      · rw [h1 v hv, hsp]
    · unfold stepCount
      rw [h2]
      simp [stepEdge, upEdge, hacc]
    · unfold stepCount
      rw [h3]
      simp [stepEdge, downEdge, hacc]

/-- C12: for every trace of `updateButtons` calls in which, at each call, at most
50 ms (modulo 2^32) have passed since the most recent call that observed a
change of a step input, no step is registered: `getSpeed()` after every call of
the trace is what it was before the trace, and no call executes the up or the
down step. The previous readings and the time of the most recent change before
the trace are those stored in the state. -/
theorem fast_toggle_registers_no_step (ticks : List Tick) (s : Buttons)
    (h : togglesWithinSettle s.upLastState s.downLastState s.lastDebounceTime ticks = true) :
    (∀ v ∈ speedsAfter ticks s, v = getSpeed s) ∧
      stepCount StepInput.up ticks s = 0 ∧ stepCount StepInput.down ticks s = 0 :=
  no_step_within_settle ticks s s.lastDebounceTime rfl h

theorem fast_toggle_registers_no_step_witness :
    togglesWithinSettle idleButtonsAt40.upLastState idleButtonsAt40.downLastState
        idleButtonsAt40.lastDebounceTime upFastToggleTrace = true ∧
      ((∀ v ∈ speedsAfter upFastToggleTrace idleButtonsAt40, v = getSpeed idleButtonsAt40) ∧
        stepCount StepInput.up upFastToggleTrace idleButtonsAt40 = 0 ∧
        stepCount StepInput.down upFastToggleTrace idleButtonsAt40 = 0) :=
  ⟨by decide, fast_toggle_registers_no_step upFastToggleTrace idleButtonsAt40 (by decide)⟩

theorem logicalNot_low : logicalNot PinLevel.LOW.toInt = true := rfl

theorem stepCount_up_of_debounced (ticks : List Tick) (s : Buttons) (hs : s.upState = true)
    (hheld : ∀ t ∈ ticks, t.up = PinLevel.LOW) : stepCount StepInput.up ticks s = 0 := by
  induction ticks generalizing s with
  | nil => rfl
  | cons t ts ih =>
    have ht : t.up = PinLevel.LOW := hheld t (List.mem_cons_self t ts)
    unfold stepCount
    rw [ih _ _ (fun x hx => hheld x (List.mem_cons_of_mem t hx))]
    · simp [stepEdge, upEdge, hs]
    · rw [updateButtons_upState, ht, logicalNot_low, hs]
      simp

theorem stepCount_down_of_debounced (ticks : List Tick) (s : Buttons) (hs : s.downState = true)
    (hheld : ∀ t ∈ ticks, t.down = PinLevel.LOW) : stepCount StepInput.down ticks s = 0 := by
  induction ticks generalizing s with
  | nil => rfl
  | cons t ts ih =>
    have ht : t.down = PinLevel.LOW := hheld t (List.mem_cons_self t ts)
    unfold stepCount
    rw [ih _ _ (fun x hx => hheld x (List.mem_cons_of_mem t hx))]
    · simp [stepEdge, downEdge, hs]
    · rw [updateButtons_downState, ht, logicalNot_low, hs]
      simp

theorem stepCount_up_held (ticks : List Tick) (s : Buttons) (d : PinLevel) (T : Nat)
    (hs : s.upState = false) (hl : s.upLastState = true)
    (hdl : s.downLastState = logicalNot d.toInt)
    (hT : s.lastDebounceTime % 4294967296 = T % 4294967296)
    (hheld : ∀ t ∈ ticks, t.up = PinLevel.LOW) (hother : ∀ t ∈ ticks, t.down = d) :
    stepCount StepInput.up ticks s =
      if ticks.any (fun t => decide (subU32 t.now T > DEBOUNCE_DELAY)) then 1 else 0 := by
  induction ticks generalizing s with
  | nil => rfl
  | cons t ts ih =>
    have ht : t.up = PinLevel.LOW := hheld t (List.mem_cons_self t ts)
    have hd : t.down = d := hother t (List.mem_cons_self t ts)
    have hheld2 : ∀ x ∈ ts, x.up = PinLevel.LOW := fun x hx => hheld x (List.mem_cons_of_mem t hx)
    have hother2 : ∀ x ∈ ts, x.down = d := fun x hx => hother x (List.mem_cons_of_mem t hx)
    have hacc : stepsAccepted t.now t.up t.down s = decide (subU32 t.now T > DEBOUNCE_DELAY) := by
      unfold stepsAccepted
      rw [ht, hd, logicalNot_low, hl, hdl, subU32_congr_right _ _ _ hT]
      simp
    unfold stepCount
    by_cases hgt : subU32 t.now T > DEBOUNCE_DELAY
    · have hacc2 : stepsAccepted t.now t.up t.down s = true := by rw [hacc]; simpa using hgt
      rw [stepCount_up_of_debounced ts _ (by
        rw [updateButtons_upState, hacc2, ht, logicalNot_low]; rfl) hheld2]
      have he : stepEdge StepInput.up t s = true := by
        show upEdge t.now t.up t.down s = true
        unfold upEdge
        rw [hacc2, ht, logicalNot_low, hs]
        rfl
      simp [he, hgt]
    · have hacc2 : stepsAccepted t.now t.up t.down s = false := by rw [hacc]; simpa using hgt
      rw [ih _ (by rw [updateButtons_upState, hacc2]; simpa using hs)
        (by rw [updateButtons_upLastState, ht, logicalNot_low])
        (by rw [updateButtons_downLastState, hd])
        (by
          rw [updateButtons_lastDebounceTime, ht, hd, logicalNot_low, hl, hdl]
          simpa using hT)
        hheld2 hother2]
      simp [stepEdge, upEdge, hacc2, hgt]

theorem stepCount_down_held (ticks : List Tick) (s : Buttons) (u : PinLevel) (T : Nat)
    (hs : s.downState = false) (hl : s.downLastState = true)
    (hul : s.upLastState = logicalNot u.toInt)
    (hT : s.lastDebounceTime % 4294967296 = T % 4294967296)
    (hheld : ∀ t ∈ ticks, t.down = PinLevel.LOW) (hother : ∀ t ∈ ticks, t.up = u) :
    stepCount StepInput.down ticks s =
      if ticks.any (fun t => decide (subU32 t.now T > DEBOUNCE_DELAY)) then 1 else 0 := by
  induction ticks generalizing s with
  | nil => rfl
  | cons t ts ih =>
    have ht : t.down = PinLevel.LOW := hheld t (List.mem_cons_self t ts)
    have hd : t.up = u := hother t (List.mem_cons_self t ts)
    have hheld2 : ∀ x ∈ ts, x.down = PinLevel.LOW :=
      fun x hx => hheld x (List.mem_cons_of_mem t hx)
    have hother2 : ∀ x ∈ ts, x.up = u := fun x hx => hother x (List.mem_cons_of_mem t hx)
    have hacc : stepsAccepted t.now t.up t.down s = decide (subU32 t.now T > DEBOUNCE_DELAY) := by
      unfold stepsAccepted
      rw [ht, hd, logicalNot_low, hl, hul, subU32_congr_right _ _ _ hT]
      simp
    unfold stepCount
    by_cases hgt : subU32 t.now T > DEBOUNCE_DELAY
    · have hacc2 : stepsAccepted t.now t.up t.down s = true := by rw [hacc]; simpa using hgt
      rw [stepCount_down_of_debounced ts _ (by
        rw [updateButtons_downState, hacc2, ht, logicalNot_low]; rfl) hheld2]
      have he : stepEdge StepInput.down t s = true := by
        show downEdge t.now t.up t.down s = true
        unfold downEdge
        rw [hacc2, ht, logicalNot_low, hs]
        rfl
      simp [he, hgt]
    · have hacc2 : stepsAccepted t.now t.up t.down s = false := by rw [hacc]; simpa using hgt
      rw [ih _ (by rw [updateButtons_downState, hacc2]; simpa using hs)
        (by rw [updateButtons_downLastState, ht, logicalNot_low])
        (by rw [updateButtons_upLastState, hd])
        (by
          rw [updateButtons_lastDebounceTime, ht, hd, logicalNot_low, hl, hul]
          simpa using hT)
        hheld2 hother2]
      simp [stepEdge, downEdge, hacc2, hgt]

theorem subU32_self (a : Nat) : subU32 a a = 0 := by
  unfold subU32
  omega

theorem stepsAccepted_true_of_settled (s : Buttons) (t : Tick) (lc : Nat)
    (hlc : s.lastDebounceTime % 4294967296 = lc % 4294967296)
    (h : ¬ subU32 t.now
        (if (logicalNot t.up.toInt != s.upLastState || logicalNot t.down.toInt != s.downLastState)
          = true then t.now else lc) ≤ DEBOUNCE_DELAY) :
    stepsAccepted t.now t.up t.down s = true := by
  unfold stepsAccepted
  by_cases hu : logicalNot t.up.toInt = s.upLastState
  · by_cases hd : logicalNot t.down.toInt = s.downLastState
    · simp only [hu, hd, bne_self_eq_false, Bool.or_self, Bool.false_eq_true, if_false] at h
      rw [subU32_congr_right _ _ _ hlc]
      simp [hu, hd]
      exact not_le.mp h
    · exfalso
      apply h
      have hc : (logicalNot t.up.toInt != s.upLastState ||
          logicalNot t.down.toInt != s.downLastState) = true := by simp [hd]
      rw [if_pos hc, subU32_self]
      exact Nat.zero_le _
  · exfalso
    apply h
    have hc : (logicalNot t.up.toInt != s.upLastState ||
        logicalNot t.down.toInt != s.downLastState) = true := by simp [hu]
    rw [if_pos hc, subU32_self]
    exact Nat.zero_le _

theorem updateButtons_lastDebounceTime_congr (t : Tick) (s : Buttons) (lc : Nat)
    (hlc : s.lastDebounceTime % 4294967296 = lc % 4294967296) :
    (updateButtons t.now t.trigger t.up t.down s).lastDebounceTime % 4294967296 =
      (if (logicalNot t.up.toInt != s.upLastState ||
          logicalNot t.down.toInt != s.downLastState) = true then t.now else lc) %
        4294967296 := by
  rw [updateButtons_lastDebounceTime]
  by_cases hu : logicalNot t.up.toInt = s.upLastState
  · by_cases hd : logicalNot t.down.toInt = s.downLastState
    · simp [hu, hd, hlc]
    · simp [hd]
  · simp [hu]

theorem togglesWithinSettle_cons (pu pd : Bool) (lc : Nat) (t : Tick) (ts : List Tick) :
    togglesWithinSettle pu pd lc (t :: ts) =
      (decide (subU32 t.now
          (if (logicalNot t.up.toInt != pu || logicalNot t.down.toInt != pd) = true then t.now
            else lc) ≤ DEBOUNCE_DELAY) &&
        togglesWithinSettle (logicalNot t.up.toInt) (logicalNot t.down.toInt)
          (if (logicalNot t.up.toInt != pu || logicalNot t.down.toInt != pd) = true then t.now
            else lc) ts) := rfl

theorem stepCount_cons (which : StepInput) (t : Tick) (ts : List Tick) (s : Buttons) :
    stepCount which (t :: ts) s =
      (if stepEdge which t s then 1 else 0) +
        stepCount which ts (updateButtons t.now t.trigger t.up t.down s) := rfl

theorem stepCount_up_pressed (ticks : List Tick) (s : Buttons) (lc : Nat)
    (hs : s.upState = false)
    (hlc : s.lastDebounceTime % 4294967296 = lc % 4294967296)
    (hheld : ∀ t ∈ ticks, t.up = PinLevel.LOW) :
    stepCount StepInput.up ticks s =
      if togglesWithinSettle s.upLastState s.downLastState lc ticks then 0 else 1 := by
  induction ticks generalizing s lc with
  | nil => rfl
  | cons t ts ih =>
    have ht : t.up = PinLevel.LOW := hheld t (List.mem_cons_self t ts)
    have hheld2 : ∀ x ∈ ts, x.up = PinLevel.LOW := fun x hx => hheld x (List.mem_cons_of_mem t hx)
    rw [stepCount_cons, togglesWithinSettle_cons]
    by_cases hw : subU32 t.now
        (if (logicalNot t.up.toInt != s.upLastState ||
          logicalNot t.down.toInt != s.downLastState) = true then t.now else lc) ≤ DEBOUNCE_DELAY
    · have hacc := stepsAccepted_false_of_within s t lc hlc hw
      have he : stepEdge StepInput.up t s = false := by
        show upEdge t.now t.up t.down s = false
        unfold upEdge
        rw [hacc]
        rfl
      rw [ih (updateButtons t.now t.trigger t.up t.down s) _
        (by rw [updateButtons_upState, hacc]; simpa using hs)
        (updateButtons_lastDebounceTime_congr t s lc hlc) hheld2,
        updateButtons_upLastState, updateButtons_downLastState, he, decide_eq_true hw,
        Bool.true_and]
      simp
    · have hacc := stepsAccepted_true_of_settled s t lc hlc hw
      have he : stepEdge StepInput.up t s = true := by
        show upEdge t.now t.up t.down s = true
        unfold upEdge
        rw [hacc, ht, logicalNot_low, hs]
        rfl
      rw [stepCount_up_of_debounced ts _ (by
        rw [updateButtons_upState, hacc, ht, logicalNot_low]; rfl) hheld2, he,
        decide_eq_false hw, Bool.false_and]
      simp

theorem stepCount_down_pressed (ticks : List Tick) (s : Buttons) (lc : Nat)
    (hs : s.downState = false)
    (hlc : s.lastDebounceTime % 4294967296 = lc % 4294967296)
    (hheld : ∀ t ∈ ticks, t.down = PinLevel.LOW) :
    stepCount StepInput.down ticks s =
      if togglesWithinSettle s.upLastState s.downLastState lc ticks then 0 else 1 := by
  induction ticks generalizing s lc with
  | nil => rfl
  | cons t ts ih =>
    have ht : t.down = PinLevel.LOW := hheld t (List.mem_cons_self t ts)
    have hheld2 : ∀ x ∈ ts, x.down = PinLevel.LOW :=
      fun x hx => hheld x (List.mem_cons_of_mem t hx)
    rw [stepCount_cons, togglesWithinSettle_cons]
    by_cases hw : subU32 t.now
        (if (logicalNot t.up.toInt != s.upLastState ||
          logicalNot t.down.toInt != s.downLastState) = true then t.now else lc) ≤ DEBOUNCE_DELAY
    · have hacc := stepsAccepted_false_of_within s t lc hlc hw
      have he : stepEdge StepInput.down t s = false := by
        show downEdge t.now t.up t.down s = false
        unfold downEdge
        rw [hacc]
        rfl
      rw [ih (updateButtons t.now t.trigger t.up t.down s) _
        (by rw [updateButtons_downState, hacc]; simpa using hs)
        (updateButtons_lastDebounceTime_congr t s lc hlc) hheld2,
        updateButtons_upLastState, updateButtons_downLastState, he, decide_eq_true hw,
        Bool.true_and]
      simp
    · have hacc := stepsAccepted_true_of_settled s t lc hlc hw
      have he : stepEdge StepInput.down t s = true := by
        show downEdge t.now t.up t.down s = true
        unfold downEdge
        rw [hacc, ht, logicalNot_low, hs]
        rfl
      rw [stepCount_down_of_debounced ts _ (by
        rw [updateButtons_downState, hacc, ht, logicalNot_low]; rfl) hheld2, he,
        decide_eq_false hw, Bool.false_and]
      simp

/-! ## Button traces: claims -/

/-- C11, as stated, fails. From the reachable state `idleButtonsAt40` (both step
inputs released, speed 40) the up button is pressed at 1000 ms and held until
1200 ms with `updateButtons` called every 40 ms; the down input changes at
every call, which restarts the shared debounce timer, and no step is
registered: the speed stays 40. Likewise, after a held press has been
registered, a release that is read by one call only (2000 ms) followed by a
press held from 2020 ms to 2200 ms registers no step, because the debounced
state never became released. -/
theorem held_press_lost_when_other_toggles :
    (idleButtonsAt40.upState = false ∧ idleButtonsAt40.upLastState = false ∧
      (∀ t ∈ upHeldDownChatterTrace, t.up = PinLevel.LOW) ∧
      upHeldDownChatterTrace.any (fun t => decide (subU32 t.now 1000 > 50)) = true ∧
      stepCount StepInput.up upHeldDownChatterTrace idleButtonsAt40 = 0 ∧
      speedsAfter upHeldDownChatterTrace idleButtonsAt40 = [40, 40, 40, 40, 40, 40]) ∧
    (speedsAfter upHeldTrace idleButtonsAt40 = [40, 40, 60, 60] ∧
      stepCount StepInput.up upShortReleaseTrace (runTicks upHeldTrace idleButtonsAt40) = 0 ∧
      speedsAfter upShortReleaseTrace (runTicks upHeldTrace idleButtonsAt40) =
        [60, 60, 60, 60, 60]) := by
  decide

/-- C11, amended: for every trace of `updateButtons` calls in which a step input
(up or down) whose debounced state is released goes from released to pressed
and then stays pressed, whatever the other step input does: at most one
20-point step is registered for that press, and exactly one is registered if
and only if some call after the one that first read the press is made more
than 50 ms (modulo 2^32) after the most recent call that observed a change of
either step input (the two inputs share one debounce timer); none is
registered while every call comes at most 50 ms after such a change. -/
theorem held_press_registers_once (which : StepInput) (s : Buttons) (first : Tick)
    (rest : List Tick)
    (hdeb : debouncedState which s = false) (hlast : lastReading which s = false)
    (hheld : ∀ t ∈ first :: rest, t.level which = PinLevel.LOW) :
    stepCount which (first :: rest) s =
        (if togglesWithinSettle (logicalNot first.up.toInt) (logicalNot first.down.toInt)
          first.now rest then 0 else 1) ∧
      stepCount which (first :: rest) s ≤ 1 := by
  have hf : first.level which = PinLevel.LOW := hheld first (List.mem_cons_self first rest)
  have hchanged : (logicalNot first.up.toInt != s.upLastState ||
      logicalNot first.down.toInt != s.downLastState) = true := by
    cases which with
    | up =>
      simp only [Tick.level, lastReading] at hf hlast
      rw [hf, logicalNot_low, hlast]
      rfl
    | down =>
      simp only [Tick.level, lastReading] at hf hlast
      rw [hf, logicalNot_low, hlast]
      simp
  have hzero : decide (subU32 first.now first.now ≤ DEBOUNCE_DELAY) = true := by
    rw [subU32_self]
    rfl
  have hcount : stepCount which (first :: rest) s =
      if togglesWithinSettle s.upLastState s.downLastState s.lastDebounceTime (first :: rest)
        then 0 else 1 := by
    cases which with
    | up => exact stepCount_up_pressed (first :: rest) s s.lastDebounceTime hdeb rfl hheld
    | down => exact stepCount_down_pressed (first :: rest) s s.lastDebounceTime hdeb rfl hheld
  rw [togglesWithinSettle_cons, if_pos hchanged, hzero, Bool.true_and] at hcount
  refine ⟨hcount, ?_⟩
  rw [hcount]
  split_ifs <;> omega

theorem held_press_registers_once_witness :
    debouncedState StepInput.up idleButtonsAt40 = false ∧
      lastReading StepInput.up idleButtonsAt40 = false ∧
      (∀ t ∈ upHeldDownChangesOnceTrace, t.level StepInput.up = PinLevel.LOW) ∧
      stepCount StepInput.up upHeldDownChangesOnceTrace idleButtonsAt40 = 1 :=
  ⟨by decide, by decide, by decide,
    (held_press_registers_once StepInput.up idleButtonsAt40
      { now := 1000, trigger := PinLevel.HIGH, up := PinLevel.LOW, down := PinLevel.HIGH }
      [{ now := 1010, trigger := PinLevel.HIGH, up := PinLevel.LOW, down := PinLevel.LOW },
       { now := 1040, trigger := PinLevel.HIGH, up := PinLevel.LOW, down := PinLevel.LOW },
       { now := 1070, trigger := PinLevel.HIGH, up := PinLevel.LOW, down := PinLevel.LOW }]
      (by decide) (by decide) (by decide)).1⟩

/-! ## Indicator light: claims -/

/-- C13 fails on the code: with speed percent 5 (in 1..20) a due `updateLED` in
the `LED_SPEED_DISPLAY` pattern leaves every position black, because
`((5 + 10) / 20) * 20 = 0`; no position is lit, not exactly one. -/
theorem speed_display_five_percent_dark (wave : Nat → Nat → Nat) :
    (speedDisplayAt 5 false).currentPattern = LedPattern.LED_SPEED_DISPLAY ∧
      (speedDisplayAt 5 false).speedDisplayPercent = 5 ∧
      (updateLED wave 2500 (speedDisplayAt 5 false)).map (fun s => s.leds) =
        some (List.replicate 5 CRGB.Black) ∧
      (updateLED wave 2500 (speedDisplayAt 5 false)).map (fun s => litCount s.leds) =
        some 0 := by
  refine ⟨by decide, by decide, ?_, ?_⟩ <;> rfl

/-- C14 fails on the code: with speed percent 85 (in 81..100) a due `updateLED`
in the `LED_SPEED_DISPLAY` pattern lights only 4 of the 5 positions, because
`((85 + 10) / 20) * 20 = 80`; position 0 stays black. -/
theorem speed_display_eighty_five_percent_four_lit (wave : Nat → Nat → Nat) :
    (speedDisplayAt 85 true).currentPattern = LedPattern.LED_SPEED_DISPLAY ∧
      (speedDisplayAt 85 true).speedDisplayPercent = 85 ∧
      (updateLED wave 2500 (speedDisplayAt 85 true)).map (fun s => s.leds) =
        some [CRGB.Black, CRGB.mk 255 0 0, CRGB.mk 255 0 0, CRGB.mk 255 0 0,
          CRGB.mk 255 0 0] ∧
      (updateLED wave 2500 (speedDisplayAt 85 true)).map (fun s => litCount s.leds) =
        some 4 := by
  refine ⟨by decide, by decide, ?_, ?_⟩ <;> rfl

theorem updateLED_speed_display_due (wave : Nat → Nat → Nat) (now : Nat) (s : Led)
    (hp : s.currentPattern = LedPattern.LED_SPEED_DISPLAY)
    (hdue : s.patternSpeed ≤ subU32 now s.lastUpdate) :
    updateLED wave now s =
      some (updateSpeedDisplay wave now { s with lastUpdate := now }) := by
  have hd : ¬ subU32 now s.lastUpdate < s.patternSpeed := not_lt.mpr hdue
  unfold updateLED
  simp [hp, hd]

/-- C15: for every clock value and either value of the active flag, a due
`updateLED` in the `LED_SPEED_DISPLAY` pattern with speed percent 0 sets the
positions 0..3 to black and the boundary position 4 to the active colour (red
when active, blue otherwise) scaled by the pulse brightness, which is computed
from the clock modulo 2000 ms; the frame is sent to the strip. -/
theorem speed_display_zero_pulses_boundary (wave : Nat → Nat → Nat) (now : Nat) (s : Led)
    (hp : s.currentPattern = LedPattern.LED_SPEED_DISPLAY)
    (h0 : s.speedDisplayPercent = 0)
    (hdue : s.patternSpeed ≤ subU32 now s.lastUpdate) :
    (updateLED wave now s).map (fun s => s.leds) =
        some [CRGB.Black, CRGB.Black, CRGB.Black, CRGB.Black,
          if s.speedDisplayIsActive then CRGB.mk (wave (now % 2000) 2000 % 256) 0 0
          else CRGB.mk 0 0 (wave (now % 2000) 2000 % 256)] ∧
      (updateLED wave now s).map (fun s => s.shown) =
        (updateLED wave now s).map (fun s => s.leds) := by
  have hb : wave (now % 2000) 2000 % 256 < 256 := Nat.mod_lt _ (by norm_num)
  have hm : 255 * (wave (now % 2000) 2000 % 256) / 255 = wave (now % 2000) 2000 % 256 :=
    Nat.mul_div_cancel_left _ (by norm_num)
  rw [updateLED_speed_display_due wave now s hp hdue]
  simp only [Option.map_some', updateSpeedDisplay, h0, fastLedShow, fillLeds, and_true]
  cases s.speedDisplayIsActive <;>
    simp [NUM_LEDS, List.range_succ, CRGB.ofBytes, CRGB.Black, hm, Nat.mod_eq_of_lt hb]

theorem speed_display_zero_pulses_boundary_witness :
    (speedDisplayAt 0 true).currentPattern = LedPattern.LED_SPEED_DISPLAY ∧
      (speedDisplayAt 0 true).speedDisplayPercent = 0 ∧
      (speedDisplayAt 0 true).patternSpeed ≤ subU32 2600 (speedDisplayAt 0 true).lastUpdate ∧
      (updateLED triangleWave 2600 (speedDisplayAt 0 true)).map (fun s => s.leds) =
        some [CRGB.Black, CRGB.Black, CRGB.Black, CRGB.Black,
          if (speedDisplayAt 0 true).speedDisplayIsActive then
            CRGB.mk (triangleWave (2600 % 2000) 2000 % 256) 0 0
          else CRGB.mk 0 0 (triangleWave (2600 % 2000) 2000 % 256)] :=
  ⟨by decide, by decide, by decide,
    (speed_display_zero_pulses_boundary triangleWave 2600 (speedDisplayAt 0 true)
      (by decide) (by decide) (by decide)).1⟩

/-! ## Main loop, battery and temperature: lemmas -/

theorem updateBattery_voltage (now : Nat) (sample : Nat → Nat) (s : Battery) :
    (updateBattery now sample s).lastBatteryVoltage =
      if subU32 now s.lastReadTime < Battery.READ_INTERVAL then s.lastBatteryVoltage
      else
        if calibrate s ((sumU32 sample 8 : ℚ) / 8 / 1000 * VBAT_SCALE) < 0 then 0
        else if calibrate s ((sumU32 sample 8 : ℚ) / 8 / 1000 * VBAT_SCALE) > 60 then 60
        else calibrate s ((sumU32 sample 8 : ℚ) / 8 / 1000 * VBAT_SCALE) := by
  unfold updateBattery
  by_cases hg : subU32 now s.lastReadTime < Battery.READ_INTERVAL
  · simp only [hg, if_true]
  · simp only [hg, if_false, calibrate, Battery.N, Nat.cast_ofNat]
    split_ifs <;> first | rfl | linarith

theorem updateBattery_voltage_range (now : Nat) (sample : Nat → Nat) (s : Battery)
    (h : 0 ≤ s.lastBatteryVoltage ∧ s.lastBatteryVoltage ≤ 60) :
    0 ≤ (updateBattery now sample s).lastBatteryVoltage ∧
      (updateBattery now sample s).lastBatteryVoltage ≤ 60 := by
  rw [updateBattery_voltage]
  split_ifs with hg hlo hhi
  · exact h
  · exact ⟨le_refl 0, by norm_num⟩
  · exact ⟨by norm_num, le_refl 60⟩
  · exact ⟨le_of_not_lt hlo, le_of_not_lt hhi⟩

theorem initBattery_voltage (now : Nat) (s : Battery) :
    (initBattery now s).lastBatteryVoltage = s.lastBatteryVoltage := rfl

theorem runBatteryCalls_voltage_range (calls : List BatteryCall) (s : Battery)
    (h : 0 ≤ s.lastBatteryVoltage ∧ s.lastBatteryVoltage ≤ 60) :
    0 ≤ (runBatteryCalls calls s).lastBatteryVoltage ∧
      (runBatteryCalls calls s).lastBatteryVoltage ≤ 60 := by
  induction calls generalizing s with
  | nil => exact h
  | cons c cs ih =>
    apply ih
    cases c with
    | init now => exact h
    | update now sample => exact updateBattery_voltage_range now sample s h

theorem adcGuard_range (adc : Nat) : 1 ≤ adcGuard adc ∧ adcGuard adc ≤ 4094 := by
  unfold adcGuard ADC12_MAX
  simp only
  split_ifs <;> omega

theorem adcGuard_of_inside (adc : Nat) (h1 : 1 ≤ adc) (h2 : adc ≤ 4094) : adcGuard adc = adc := by
  unfold adcGuard ADC12_MAX
  simp only
  split_ifs <;> omega

theorem adcGuard_mono (a b : Nat) (h : a ≤ b) : adcGuard a ≤ adcGuard b := by
  unfold adcGuard ADC12_MAX
  simp only
  split_ifs <;> omega

theorem resistance_ratio (x : Nat) (h1 : 1 ≤ x) :
    thermistorResistance ℝ x / R0 ℝ = (4095 - (x : ℝ)) / x := by
  unfold thermistorResistance SERIES_R R0 ADC12_MAX
  have hx : (x : ℝ) ≠ 0 := by
    have : (0 : ℝ) < x := by exact_mod_cast h1
    exact ne_of_gt this
  push_cast
  field_simp
  ring

theorem log_4096_lt : Real.log 4096 < 9 := by
  have h : (4096 : ℝ) = 2 ^ 12 := by norm_num
  rw [h, Real.log_pow]
  have := Real.log_two_lt_d9
  push_cast
  linarith

theorem beta_denominator_pos (x : Nat) (h1 : 1 ≤ x) (h2 : x ≤ 4094) :
    0 < 1 / T0_K ℝ + (1 / BETA ℝ) * Real.log (thermistorResistance ℝ x / R0 ℝ) := by
  rw [resistance_ratio x h1]
  have hx : (0 : ℝ) < x := by exact_mod_cast h1
  have hx2 : (x : ℝ) ≤ 4094 := by exact_mod_cast h2
  have hlow : (1 : ℝ) / 4096 ≤ (4095 - (x : ℝ)) / x := by
    rw [div_le_div_iff₀ (by norm_num) hx]
    linarith
  have hlog : Real.log ((1 : ℝ) / 4096) ≤ Real.log ((4095 - (x : ℝ)) / x) :=
    Real.log_le_log (by norm_num) hlow
  have h1' : Real.log ((1 : ℝ) / 4096) = - Real.log 4096 := by
    rw [one_div, Real.log_inv]
  have h9 := log_4096_lt
  unfold T0_K BETA
  have : (-9 : ℝ) < Real.log ((4095 - (x : ℝ)) / x) := by linarith
  have e : (1 : ℝ) / (29815 / 100) + 1 / 3950 * Real.log ((4095 - (x : ℝ)) / x) >
      1 / (29815 / 100) + 1 / 3950 * (-9) := by
    have : (1 : ℝ) / 3950 * (-9) < 1 / 3950 * Real.log ((4095 - (x : ℝ)) / x) :=
      mul_lt_mul_of_pos_left this (by norm_num)
    linarith
  have e2 : (0 : ℝ) < 1 / (29815 / 100) + 1 / 3950 * (-9) := by norm_num
  linarith

theorem conversion_strictMono_inside (x y : Nat) (h1 : 1 ≤ x) (hxy : x < y) (h2 : y ≤ 4094) :
    kelvinToCelsius (betaKelvin Real.log (thermistorResistance ℝ x)) <
      kelvinToCelsius (betaKelvin Real.log (thermistorResistance ℝ y)) := by
  have hy1 : 1 ≤ y := by omega
  have hx2 : x ≤ 4094 := by omega
  have dx := beta_denominator_pos x h1 hx2
  have dy := beta_denominator_pos y hy1 h2
  have hx : (0 : ℝ) < x := by exact_mod_cast h1
  have hy : (0 : ℝ) < y := by exact_mod_cast hy1
  have hxy' : (x : ℝ) < y := by exact_mod_cast hxy
  have hy2 : (y : ℝ) ≤ 4094 := by exact_mod_cast h2
  have hr : (4095 - (y : ℝ)) / y < (4095 - (x : ℝ)) / x := by
    rw [div_lt_div_iff₀ hy hx]
    nlinarith
  have hpos : (0 : ℝ) < (4095 - (y : ℝ)) / y := div_pos (by linarith) hy
  have hlog : Real.log ((4095 - (y : ℝ)) / y) < Real.log ((4095 - (x : ℝ)) / x) :=
    Real.log_lt_log hpos hr
  have hden : 1 / T0_K ℝ + (1 / BETA ℝ) * Real.log (thermistorResistance ℝ y / R0 ℝ) <
      1 / T0_K ℝ + (1 / BETA ℝ) * Real.log (thermistorResistance ℝ x / R0 ℝ) := by
    rw [resistance_ratio x h1, resistance_ratio y hy1]
    have hb : (0 : ℝ) < 1 / BETA ℝ := by unfold BETA; norm_num
    have := mul_lt_mul_of_pos_left hlog hb
    linarith
  unfold kelvinToCelsius betaKelvin
  have := one_div_lt_one_div_of_lt dy hden
  linarith

/-! ## Main loop, battery and temperature: claims -/

/-- C16: for every speed in 0..100, with the motor intent active the motor step
of the main loop stores the duty `(255 * speed) / 100` (rounded down), computed
from the exact speed; the duty is strictly increasing in the speed, speed 0
gives duty 0 and speed 100 gives duty 255, so two different speeds always get
different duties, also when they round to the same display step. -/
theorem loopMotorStep_duty_exact (b1 b2 : Buttons) (m1 m2 : MotorPWM)
    (h1 : isMotorActive b1 = true) (h2 : isMotorActive b2 = true)
    (hlt : getSpeed b1 < getSpeed b2) (hle : getSpeed b2 ≤ 100) :
    getMotorDuty (loopMotorStep b1 m1) = (255 * (getSpeed b1 : Int)) / 100 ∧
      getMotorDuty (loopMotorStep b2 m2) = (255 * (getSpeed b2 : Int)) / 100 ∧
      getMotorDuty (loopMotorStep b1 m1) < getMotorDuty (loopMotorStep b2 m2) ∧
      (if getSpeed b1 = 0 then getMotorDuty (loopMotorStep b1 m1) = 0 else True) ∧
      (if getSpeed b2 = 100 then getMotorDuty (loopMotorStep b2 m2) = 255 else True) := by
  have e1 : getMotorDuty (loopMotorStep b1 m1) = clampDuty (((getSpeed b1 : Int) * 255) / 100) := by
    unfold loopMotorStep getMotorDuty
    simp only [h1, if_true, startMotor_duty, setMotorDuty_duty]
  have e2 : getMotorDuty (loopMotorStep b2 m2) = clampDuty (((getSpeed b2 : Int) * 255) / 100) := by
    unfold loopMotorStep getMotorDuty
    simp only [h2, if_true, startMotor_duty, setMotorDuty_duty]
  rw [e1, e2]
  unfold clampDuty
  refine ⟨?_, ?_, ?_, ?_, ?_⟩
  · omega
  · omega
  · omega
  · split_ifs with h0
    omega
  · split_ifs with h0
    omega

theorem loopMotorStep_duty_exact_witness :
    isMotorActive (setMotorState true (setSpeed 45 buttonsBoot)) = true ∧
      isMotorActive (setMotorState true (setSpeed 49 buttonsBoot)) = true ∧
      getSpeed (setMotorState true (setSpeed 45 buttonsBoot)) <
        getSpeed (setMotorState true (setSpeed 49 buttonsBoot)) ∧
      getSpeed (setMotorState true (setSpeed 49 buttonsBoot)) ≤ 100 ∧
      getMotorDuty (loopMotorStep (setMotorState true (setSpeed 45 buttonsBoot))
          (initMotorPWM motorBoot)) <
        getMotorDuty (loopMotorStep (setMotorState true (setSpeed 49 buttonsBoot))
          (initMotorPWM motorBoot)) :=
  ⟨by decide, by decide, by decide, by decide,
    (loopMotorStep_duty_exact (setMotorState true (setSpeed 45 buttonsBoot))
      (setMotorState true (setSpeed 49 buttonsBoot)) (initMotorPWM motorBoot)
      (initMotorPWM motorBoot) (by decide) (by decide) (by decide) (by decide)).2.2.1⟩

/-- C17: for every two reference pairs (trueA, measA), (trueB, measB) with
measA different from measB, the slope and offset computed as in `initBattery`
satisfy measA * slope + offset = trueA and measB * slope + offset = trueB in
exact rational arithmetic; `initBattery` uses the pairs (12, 11.64) and
(36, 35.28). -/
theorem calibration_reproduces_reference_points (trueA measA trueB measB : ℚ) (now : Nat)
    (s : Battery) (h : measA ≠ measB) :
    calibrate (initBatteryWith trueA measA trueB measB now s) measA = trueA ∧
      calibrate (initBatteryWith trueA measA trueB measB now s) measB = trueB ∧
      initBattery now s = initBatteryWith 12 (1164 / 100) 36 (3528 / 100) now s := by
  have hne : measB - measA ≠ 0 := sub_ne_zero.mpr (Ne.symm h)
  refine ⟨?_, ?_, rfl⟩
  · unfold calibrate initBatteryWith
    simp only
    field_simp
    ring
  · unfold calibrate initBatteryWith
    simp only
    field_simp
    ring

theorem calibration_reproduces_reference_points_witness :
    CAL_VMEAS1 ≠ CAL_VMEAS2 ∧
      calibrate (initBatteryWith CAL_VTRUE1 CAL_VMEAS1 CAL_VTRUE2 CAL_VMEAS2 0 batteryBoot)
        CAL_VMEAS1 = CAL_VTRUE1 :=
  ⟨by norm_num [CAL_VMEAS1, CAL_VMEAS2],
    (calibration_reproduces_reference_points CAL_VTRUE1 CAL_VMEAS1 CAL_VTRUE2
      CAL_VMEAS2 0 batteryBoot (by norm_num [CAL_VMEAS1, CAL_VMEAS2])).1⟩

/-- C18: after every sequence of `initBattery` and `updateBattery` calls from
boot, with any millivolt readings and clock values, `getBatteryVoltage()` lies
in [0, 60]; a due `updateBattery` stores 0 for a calibrated result below 0 and
60 for one above 60, while `getBatteryVoltageRaw()` gets the unclamped,
uncalibrated divider voltage `mv / 8 / 1000 * VBAT_SCALE`. -/
theorem battery_voltage_in_range (calls : List BatteryCall) (now : Nat) (sample : Nat → Nat)
    (s : Battery) :
    (0 ≤ getBatteryVoltage (runBatteryCalls calls batteryBoot) ∧
      getBatteryVoltage (runBatteryCalls calls batteryBoot) ≤ 60) ∧
    getBatteryVoltage (updateBattery now sample s) =
      (if subU32 now s.lastReadTime < 250 then getBatteryVoltage s
      else
        if calibrate s ((sumU32 sample 8 : ℚ) / 8 / 1000 * VBAT_SCALE) < 0 then 0
        else if calibrate s ((sumU32 sample 8 : ℚ) / 8 / 1000 * VBAT_SCALE) > 60 then 60
        else calibrate s ((sumU32 sample 8 : ℚ) / 8 / 1000 * VBAT_SCALE)) ∧
    getBatteryVoltageRaw (updateBattery now sample s) =
      (if subU32 now s.lastReadTime < 250 then getBatteryVoltageRaw s
      else (sumU32 sample 8 : ℚ) / 8 / 1000 * VBAT_SCALE) := by
  refine ⟨?_, ?_, ?_⟩
  · exact runBatteryCalls_voltage_range calls batteryBoot (by decide)
  · exact updateBattery_voltage now sample s
  · unfold getBatteryVoltageRaw updateBattery
    by_cases hg : subU32 now s.lastReadTime < Battery.READ_INTERVAL
    · have hg2 : subU32 now s.lastReadTime < 250 := hg
      simp only [hg, hg2, if_true]
    · have hg2 : ¬ subU32 now s.lastReadTime < 250 := hg
      simp only [hg, hg2, if_false, Battery.N, Nat.cast_ofNat]

/-- C19, as stated, fails: the guard maps the averaged codes 0 and 1 to the same
code 1, so the temperatures computed for 0 and for 1 are equal and the one for
0 is not lower. -/
theorem temperature_codes_zero_one_equal :
    temperatureOfCode Real.log 0 = temperatureOfCode Real.log 1 ∧
      ¬ (temperatureOfCode Real.log 0 < temperatureOfCode Real.log 1) := by
  have h : temperatureOfCode Real.log 0 = temperatureOfCode Real.log 1 := by
    unfold temperatureOfCode
    have h0 : adcGuard 0 = 1 := by decide
    have h1 : adcGuard 1 = 1 := by decide
    simp only [h0, h1]
  exact ⟨h, by rw [h]; exact lt_irrefl _⟩

/-- C19, amended: for every two averaged ADC codes a < b (in particular in
0..4095), in real arithmetic with the natural logarithm, the temperature
computed by the conversion of `updateTemperature` for a is lower than the one
for b, except for the pairs that the guard maps to one code, (0, 1) and
(4094, 4095) within 0..4095, for which the two temperatures are equal. -/
theorem temperature_monotone_in_code (a b : Nat) (hab : a < b) :
    if 2 ≤ b ∧ a ≤ 4093 then temperatureOfCode Real.log a < temperatureOfCode Real.log b
    else temperatureOfCode Real.log a = temperatureOfCode Real.log b := by
  unfold temperatureOfCode
  simp only
  split_ifs with h
  · have hlt : adcGuard a < adcGuard b := by
      unfold adcGuard ADC12_MAX
      simp only
      split_ifs <;> omega
    exact conversion_strictMono_inside (adcGuard a) (adcGuard b) (adcGuard_range a).1 hlt
      (adcGuard_range b).2
  · have heq : adcGuard a = adcGuard b := by
      unfold adcGuard ADC12_MAX
      simp only
      split_ifs <;> omega
    rw [heq]

theorem temperature_monotone_in_code_witness :
    1000 < 3000 ∧
      (if 2 ≤ 3000 ∧ 1000 ≤ 4093 then
        temperatureOfCode Real.log 1000 < temperatureOfCode Real.log 3000
      else temperatureOfCode Real.log 1000 = temperatureOfCode Real.log 3000) :=
  ⟨by decide, temperature_monotone_in_code 1000 3000 (by decide)⟩

/-- C20: when the sensed thermistor resistance equals the reference resistance
`R0` (10 kΩ), the Beta equation of `updateTemperature` gives `T_K = T0_K`
(298.15) and the reported temperature is 25 °C, in real arithmetic with the
natural logarithm. -/
theorem beta_at_reference_resistance :
    R0 ℝ = 10000 ∧ betaKelvin Real.log (R0 ℝ) = T0_K ℝ ∧
      kelvinToCelsius (betaKelvin Real.log (R0 ℝ)) = 25 := by
  have hk : betaKelvin Real.log (R0 ℝ) = T0_K ℝ := by
    unfold betaKelvin
    have hr : R0 ℝ / R0 ℝ = 1 := div_self (by unfold R0; norm_num)
    rw [hr, Real.log_one]
    unfold T0_K
    norm_num
  refine ⟨rfl, hk, ?_⟩
  rw [hk]
  unfold kelvinToCelsius T0_K
  norm_num

/-! ## Tachometer, sampler gates, indicator switching and stale duty: claims -/

/-- C22: for every snapshotted pulse count `N` and actual elapsed time
`dt ≥ 200` ms (the 32-bit clock difference), a due `updateTachometer` stores
`RPM = (N * 1000 / dt) * 60 / PULSES_PER_REV` computed with the actual `dt`,
resets the pulse counter to 0, records the time and sets the ready flag;
`PULSES_PER_REV` is 1, and `N` pulses over exactly 1000 ms give `RPM = 60 * N`
(exact rational arithmetic). -/
theorem tachometer_rpm_from_actual_dt (now : Nat) (s : Tachometer)
    (hdue : 200 ≤ subU32 now s.lastUpdateTime) :
    getRPM (updateTachometer now s) =
        ((s.fgPulseCount : ℚ) * 1000 / (subU32 now s.lastUpdateTime : ℚ)) * 60 /
          (PULSES_PER_REV : ℚ) ∧
      (updateTachometer now s).fgPulseCount = 0 ∧
      (updateTachometer now s).lastUpdateTime = now ∧
      isRPMReady (updateTachometer now s) = true ∧
      PULSES_PER_REV = 1 ∧
      (if subU32 now s.lastUpdateTime = 1000 then
        getRPM (updateTachometer now s) = 60 * (s.fgPulseCount : ℚ) else True) := by
  have hd : ¬ subU32 now s.lastUpdateTime < UPDATE_INTERVAL := not_lt.mpr hdue
  have e : updateTachometer now s =
      { fgPulseCount := 0,
        rpm_cached := ((s.fgPulseCount : ℚ) * 1000 / (subU32 now s.lastUpdateTime : ℚ)) * 60 /
          (PULSES_PER_REV : ℚ),
        rpmReady := true, lastUpdateTime := now } := by
    unfold updateTachometer
    simp only [hd, if_false]
  rw [e]
  refine ⟨rfl, rfl, rfl, rfl, rfl, ?_⟩
  split_ifs with h1000
  unfold getRPM PULSES_PER_REV
  simp only [h1000]
  norm_num
  ring

theorem tachometer_rpm_from_actual_dt_witness :
    200 ≤ subU32 1000 (Nat.iterate onFgPulse 50 (initTachometer 0 tachometerBoot)).lastUpdateTime ∧
      (updateTachometer 1000
        (Nat.iterate onFgPulse 50 (initTachometer 0 tachometerBoot))).fgPulseCount = 0 :=
  ⟨by decide, (tachometer_rpm_from_actual_dt 1000
    (Nat.iterate onFgPulse 50 (initTachometer 0 tachometerBoot)) (by decide)).2.1⟩

/-- C26: for every battery and temperature sampler state and clock value `now`:
when `(now - lastReadTime) mod 2^32 < 250` the call of `updateBattery` (resp.
`updateTemperature`) is a no-op, the whole state is unchanged; when the
difference is at least 250 the call samples (stores the values computed from
the readings), sets `lastReadTime = now` and sets the ready flag. -/
theorem sampler_time_gate {K : Type} [Field K] (ln : K → K) (now : Nat) (sample : Nat → Nat)
    (b : Battery) (t : Temperature K) :
    (if subU32 now b.lastReadTime < 250 then updateBattery now sample b = b
      else
        (updateBattery now sample b).lastReadTime = now ∧
        isBatteryReady (updateBattery now sample b) = true ∧
        getBatteryVoltageRaw (updateBattery now sample b) =
          (sumU32 sample 8 : ℚ) / 8 / 1000 * VBAT_SCALE ∧
        getBatteryVoltage (updateBattery now sample b) =
          (if calibrate b ((sumU32 sample 8 : ℚ) / 8 / 1000 * VBAT_SCALE) < 0 then 0
          else if calibrate b ((sumU32 sample 8 : ℚ) / 8 / 1000 * VBAT_SCALE) > 60 then 60
          else calibrate b ((sumU32 sample 8 : ℚ) / 8 / 1000 * VBAT_SCALE))) ∧
    (if subU32 now t.lastReadTime < 250 then updateTemperature ln now sample t = t
      else
        (updateTemperature ln now sample t).lastReadTime = now ∧
        isTemperatureReady (updateTemperature ln now sample t) = true ∧
        getTemperature (updateTemperature ln now sample t) =
          temperatureOfCode ln (averagedCode sample)) := by
  constructor
  · by_cases hg : subU32 now b.lastReadTime < 250
    · rw [if_pos hg]
      unfold updateBattery
      have hg2 : subU32 now b.lastReadTime < Battery.READ_INTERVAL := hg
      simp only [hg2, if_true]
    · rw [if_neg hg]
      have hg2 : ¬ subU32 now b.lastReadTime < Battery.READ_INTERVAL := hg
      refine ⟨?_, ?_, ?_, ?_⟩
      · unfold updateBattery
        simp only [hg2, if_false]
      · unfold updateBattery isBatteryReady
        simp only [hg2, if_false]
      · unfold updateBattery getBatteryVoltageRaw
        simp only [hg2, if_false, Battery.N, Nat.cast_ofNat]
      · unfold getBatteryVoltage
        rw [updateBattery_voltage]
        simp only [hg2, if_false]
  · by_cases hg : subU32 now t.lastReadTime < 250
    · rw [if_pos hg]
      unfold updateTemperature
      have hg2 : subU32 now t.lastReadTime < Temperature.READ_INTERVAL := hg
      simp only [hg2, if_true]
    · rw [if_neg hg]
      have hg2 : ¬ subU32 now t.lastReadTime < Temperature.READ_INTERVAL := hg
      unfold updateTemperature isTemperatureReady getTemperature
      simp only [hg2, if_false, and_self]

/-- C28 fails on the code: after `initMotorPWM`, `setMotorDuty(100)`,
`startMotor()`, `setMotorDuty(0)`, `setMotorDuty(50)` the motor is not running
and the PWM peripheral is attached to the pin, yet the value most recently
written to the PWM channel is the stale duty 100, not 0. -/
theorem stale_duty_after_zero_then_nonzero :
    isMotorRunning motorStaleDuty = false ∧
      motorStaleDuty.pinAttached = true ∧
      motorStaleDuty.ledcAttached = true ∧
      getMotorDuty motorStaleDuty = 50 ∧
      motorStaleDuty.ledcDuty = 100 ∧
      motorStaleDuty.ledcDuty ≠ 0 := by
  decide

/-- C29 fails on the code: after `setLEDSpeed(0)` and `setLEDPattern(LED_PULSE)`
an `updateLED` at 100 ms is due (the interval of the pulse pattern is 10 ms)
and computes `currentTime % patternSpeed` with `patternSpeed = 0`: the call has
no result. -/
theorem pulse_with_zero_speed_divides_by_zero (wave : Nat → Nat → Nat) :
    (setLEDPattern LedPattern.LED_PULSE (setLEDSpeed 0 ledBoot)).patternSpeed = 0 ∧
      (setLEDPattern LedPattern.LED_PULSE (setLEDSpeed 0 ledBoot)).currentPattern =
        LedPattern.LED_PULSE ∧
      10 ≤ subU32 100 (setLEDPattern LedPattern.LED_PULSE (setLEDSpeed 0 ledBoot)).lastUpdate ∧
      updateLED wave 100 (setLEDPattern LedPattern.LED_PULSE (setLEDSpeed 0 ledBoot)) = none := by
  refine ⟨by decide, by decide, by decide, rfl⟩

/-- C30 fails on the code: with the 8-bit speed percent 250 the rounded value
`((250 + 10) / 20) * 20 = 260` wraps to 4 in the `uint8_t`, below the cap, so
the display value is 4, no position is lit and the frame is all black. -/
theorem speed_display_wraps_at_250 (wave : Nat → Nat → Nat) :
    (speedDisplayAt 250 true).speedDisplayPercent = 250 ∧
      displaySpeedOf 250 = 4 ∧
      ledsToLightOf 250 = 0 ∧
      (updateLED wave 2500 (speedDisplayAt 250 true)).map (fun s => s.leds) =
        some (List.replicate 5 CRGB.Black) ∧
      (updateLED wave 2500 (speedDisplayAt 250 true)).map (fun s => litCount s.leds) =
        some 0 := by
  refine ⟨by decide, by decide, by decide, rfl, rfl⟩

/-- C23, as stated, fails: `checkSpeedDisplayMode` switches the blinking
indicator to `LED_SPEED_DISPLAY` and leaves `blinkState = true`; it switches the
pulsing indicator and leaves `pulseBrightness = 127`; and with speed-display
mode active, `setLEDSpeedDisplay` switches the blinking indicator back to
`LED_SPEED_DISPLAY` and leaves `blinkState = true`. -/
theorem speed_display_switch_keeps_animation_state :
    (ledBlinking.map (fun s => s.currentPattern) = some LedPattern.LED_BLINK ∧
      ledBlinking.map (fun s => (checkSpeedDisplayMode 2000 0 s).currentPattern) =
        some LedPattern.LED_SPEED_DISPLAY ∧
      ledBlinking.map (fun s => (checkSpeedDisplayMode 2000 0 s).blinkState) = some true) ∧
    (ledPulsing.map (fun s => s.currentPattern) = some LedPattern.LED_PULSE ∧
      ledPulsing.map (fun s => (checkSpeedDisplayMode 2000 0 s).currentPattern) =
        some LedPattern.LED_SPEED_DISPLAY ∧
      ledPulsing.map (fun s => (checkSpeedDisplayMode 2000 0 s).pulseBrightness) = some 127) ∧
    ((updateLED triangleWave 3000
        (setLEDPattern LedPattern.LED_BLINK (speedDisplayAt 40 false))).map
          (fun s => (s.currentPattern, s.speedDisplayModeActive)) =
        some (LedPattern.LED_BLINK, true) ∧
      (updateLED triangleWave 3000
        (setLEDPattern LedPattern.LED_BLINK (speedDisplayAt 40 false))).map
          (fun s => ((setLEDSpeedDisplay 40 false s).currentPattern,
            (setLEDSpeedDisplay 40 false s).blinkState)) =
        some (LedPattern.LED_SPEED_DISPLAY, true)) := by
  decide

/-- C23, amended: `setLEDPattern` leaves the animation state reset
(`blinkState = false`, `pulseBrightness = 0`, `lastUpdate = 0`);
`setLEDSpeedDisplay` once speed-display mode is active, and
`checkSpeedDisplayMode` when it switches, set the pattern to
`LED_SPEED_DISPLAY` and reset `lastUpdate = 0` only: `blinkState` and
`pulseBrightness` keep their values. -/
theorem pattern_switch_resets (pattern : LedPattern) (p : Nat) (a : Bool) (now bootTime : Nat)
    (s : Led) :
    ((setLEDPattern pattern s).currentPattern = pattern ∧
      (setLEDPattern pattern s).blinkState = false ∧
      (setLEDPattern pattern s).pulseBrightness = 0 ∧
      (setLEDPattern pattern s).lastUpdate = 0) ∧
    ((setLEDSpeedDisplay p a s).currentPattern =
        (if s.speedDisplayModeActive then LedPattern.LED_SPEED_DISPLAY else s.currentPattern) ∧
      (setLEDSpeedDisplay p a s).lastUpdate =
        (if s.speedDisplayModeActive then 0 else s.lastUpdate) ∧
      (setLEDSpeedDisplay p a s).blinkState = s.blinkState ∧
      (setLEDSpeedDisplay p a s).pulseBrightness = s.pulseBrightness) ∧
    ((checkSpeedDisplayMode now bootTime s).currentPattern =
        (if s.speedDisplayModeActive = false ∧ 2000 ≤ subU32 now bootTime then
          LedPattern.LED_SPEED_DISPLAY else s.currentPattern) ∧
      (checkSpeedDisplayMode now bootTime s).lastUpdate =
        (if s.speedDisplayModeActive = false ∧ 2000 ≤ subU32 now bootTime then 0
          else s.lastUpdate) ∧
      (checkSpeedDisplayMode now bootTime s).blinkState = s.blinkState ∧
      (checkSpeedDisplayMode now bootTime s).pulseBrightness = s.pulseBrightness) := by
  refine ⟨⟨rfl, rfl, rfl, rfl⟩, ?_, ?_⟩
  · unfold setLEDSpeedDisplay
    simp only
    split_ifs <;> exact ⟨rfl, rfl, rfl, rfl⟩
  · unfold checkSpeedDisplayMode
    by_cases hm : s.speedDisplayModeActive = false
    · by_cases ht : 2000 ≤ subU32 now bootTime
      · simp [hm, ht]
      · simp [hm, ht]
    · simp [hm]

/-! ## Speed range, sampling guard, display rounding and loop head: lemmas -/

theorem updateButtons_speed_le (now : Nat) (t u d : PinLevel) (s : Buttons)
    (h : s.speedPercent ≤ 100) : (updateButtons now t u d s).speedPercent ≤ 100 := by
  rw [updateButtons_speedPercent]
  split_ifs
  · simp only [stepUp_eq, stepDown_eq]
    split_ifs <;> omega
  · exact h

theorem setSpeed_speed_le (v : Nat) (s : Buttons) : (setSpeed v s).speedPercent ≤ 100 := by
  unfold setSpeed
  simp only
  split_ifs with h
  · exact le_refl 100
  · exact not_lt.mp h

theorem setMotorState_speedPercent (a : Bool) (s : Buttons) :
    (setMotorState a s).speedPercent = s.speedPercent := by
  unfold setMotorState
  simp only
  split_ifs <;> rfl

theorem buttonCall_speed_le (c : ButtonCall) (s : Buttons) (h : s.speedPercent ≤ 100) :
    (c.run s).speedPercent ≤ 100 := by
  cases c with
  | init t u d => exact Nat.zero_le 100
  | update now t u d => exact updateButtons_speed_le now t u d s h
  | speed v => exact setSpeed_speed_le v s
  | motorState a =>
    show (setMotorState a s).speedPercent ≤ 100
    rw [setMotorState_speedPercent]
    exact h

theorem runButtonCalls_speed_le (calls : List ButtonCall) (s : Buttons)
    (h : s.speedPercent ≤ 100) : (runButtonCalls calls s).speedPercent ≤ 100 := by
  induction calls generalizing s with
  | nil => exact h
  | cons c cs ih => exact ih (c.run s) (buttonCall_speed_le c s h)

theorem sumU32_le (sample : Nat → Nat) (bound n : Nat) (h : ∀ i, i < n → sample i ≤ bound)
    (hb : n * bound < 4294967296) : sumU32 sample n ≤ n * bound := by
  unfold sumU32
  induction n with
  | zero => simp
  | succ k ih =>
    rw [List.range_succ, List.foldl_append]
    simp only [List.foldl_cons, List.foldl_nil]
    have hk : k * bound < 4294967296 := by
      have : k * bound ≤ (k + 1) * bound := Nat.mul_le_mul_right _ (Nat.le_succ k)
      omega
    have h1 := ih (fun i hi => h i (Nat.lt_succ_of_lt hi)) hk
    have h2 := h k (Nat.lt_succ_self k)
    have h3 : (k + 1) * bound = k * bound + bound := by ring
    omega

theorem averagedCode_le (sample : Nat → Nat) (h : ∀ i, i < 8 → sample i ≤ 4095) :
    averagedCode sample ≤ 4095 := by
  unfold averagedCode Temperature.N
  have hs := sumU32_le (fun i => sample i % 65536) 4095 8
    (fun i hi => by have := h i hi; show sample i % 65536 ≤ 4095; omega) (by norm_num)
  omega

theorem thermistorResistance_pos (x : Nat) (h1 : 1 ≤ x) (h2 : x ≤ 4094) :
    0 < thermistorResistance ℝ x := by
  unfold thermistorResistance SERIES_R ADC12_MAX
  have hx : (0 : ℝ) < x := by exact_mod_cast h1
  have hx2 : (x : ℝ) ≤ 4094 := by exact_mod_cast h2
  push_cast
  have : (0 : ℝ) < (4095 - (x : ℝ)) / x := div_pos (by linarith) hx
  linarith

theorem updateSpeedDisplay_nonzero (wave : Nat → Nat → Nat) (now : Nat) (s : Led)
    (h : s.speedDisplayPercent ≠ 0) :
    updateSpeedDisplay wave now s =
      fastLedShow (fillLeds (fun i =>
        if (i : Int) ≥ (NUM_LEDS : Int) - ledsToLightOf s.speedDisplayPercent then
          activeColorOf s.speedDisplayIsActive else CRGB.Black) s) := by
  unfold updateSpeedDisplay ledsToLightOf displaySpeedOf activeColorOf
  simp only [h, if_false]

theorem displaySpeedOf_eq (p : Nat) (hp : p ≤ 100) : displaySpeedOf p = ((p + 10) / 20) * 20 := by
  have hk : (p + 10) / 20 * 20 ≤ 100 := by omega
  have hm : (p + 10) / 20 * 20 % 256 = (p + 10) / 20 * 20 := Nat.mod_eq_of_lt (by omega)
  unfold displaySpeedOf
  simp only [hm]
  split_ifs
  · omega
  · rfl

theorem ledsToLightOf_eq (p : Nat) (hp : p ≤ 100) : ledsToLightOf p = (((p + 10) / 20 : Nat) : Int) := by
  unfold ledsToLightOf NUM_LEDS
  rw [displaySpeedOf_eq p hp]
  simp only
  split_ifs <;> omega

theorem speedDisplayFrame_eq (p : Nat) (hp : p ≤ 100) (c : CRGB) :
    (List.range NUM_LEDS).map (fun (i : Nat) =>
        if (i : Int) ≥ (NUM_LEDS : Int) - ledsToLightOf p then c else CRGB.Black) =
      (List.range NUM_LEDS).map (fun (i : Nat) =>
        if NUM_LEDS - (p + 10) / 20 ≤ i then c else CRGB.Black) := by
  rw [ledsToLightOf_eq p hp]
  apply List.map_congr_left
  intro i hi
  have hi5 : i < 5 := by simpa [NUM_LEDS] using hi
  have hk : (p + 10) / 20 ≤ 5 := by omega
  unfold NUM_LEDS
  split_ifs <;> first | rfl | (exfalso; omega)

theorem litCount_speedDisplayFrame (k : Nat) (hk : k ≤ 5) (c : CRGB) (hc : c ≠ CRGB.Black) :
    litCount ((List.range NUM_LEDS).map (fun i =>
        if NUM_LEDS - k ≤ i then c else CRGB.Black)) = k := by
  unfold litCount NUM_LEDS
  have hb : (c != CRGB.Black) = true := by simpa using hc
  interval_cases k <;> simp [List.range_succ, hb]

theorem activeColorOf_ne_black (a : Bool) : activeColorOf a ≠ CRGB.Black := by
  cases a <;> decide

/-- C21: for every 8 raw ADC readings each in 0..4095 the averaged code is in
0..4095 and after the guard it lies in [1, 4094]; so in `updateTemperature` the
divisor `adc` is non-zero, the resistance `Rth` is strictly positive, the
argument `Rth / R0` of the logarithm is strictly positive, and the Beta-equation
denominator `1/T0 + ln(Rth/R0)/BETA` is strictly positive (real arithmetic,
natural logarithm); the constant divisors `T0_K`, `BETA` and `R0` are non-zero. -/
theorem temperature_no_division_by_zero (sample : Nat → Nat)
    (h : ∀ i, i < 8 → sample i ≤ 4095) :
    averagedCode sample ≤ 4095 ∧
      1 ≤ adcGuard (averagedCode sample) ∧ adcGuard (averagedCode sample) ≤ 4094 ∧
      ((adcGuard (averagedCode sample) : Nat) : ℝ) ≠ 0 ∧
      0 < thermistorResistance ℝ (adcGuard (averagedCode sample)) ∧
      0 < thermistorResistance ℝ (adcGuard (averagedCode sample)) / R0 ℝ ∧
      0 < 1 / T0_K ℝ +
        (1 / BETA ℝ) * Real.log (thermistorResistance ℝ (adcGuard (averagedCode sample)) / R0 ℝ) ∧
      T0_K ℝ ≠ 0 ∧ BETA ℝ ≠ 0 ∧ R0 ℝ ≠ 0 := by
  have hg := adcGuard_range (averagedCode sample)
  have hr := thermistorResistance_pos _ hg.1 hg.2
  have hR0 : (0 : ℝ) < R0 ℝ := by unfold R0; norm_num
  refine ⟨averagedCode_le sample h, hg.1, hg.2, ?_, hr, div_pos hr hR0,
    beta_denominator_pos _ hg.1 hg.2, ?_, ?_, ne_of_gt hR0⟩
  · have : (0 : ℝ) < ((adcGuard (averagedCode sample) : Nat) : ℝ) := by exact_mod_cast hg.1
    exact ne_of_gt this
  · unfold T0_K; norm_num
  · unfold BETA; norm_num

theorem temperature_no_division_by_zero_witness :
    (∀ i, i < 8 → (fun _ : Nat => 2000) i ≤ 4095) ∧
      averagedCode (fun _ : Nat => 2000) ≤ 4095 :=
  ⟨fun _ _ => by show 2000 ≤ 4095; decide,
    (temperature_no_division_by_zero (fun _ : Nat => 2000)
      (fun _ _ => by show 2000 ≤ 4095; decide)).1⟩

/-- C24: after every sequence of `initButtons`, `updateButtons` (any pin
readings and clock values), `setSpeed` (any argument, taken as 8 bits) and
`setMotorState` calls from boot, `getSpeed()` is in 0..100; hence the 8-bit
addition of 20 in the up step never wraps around. Every prefix of a call
sequence is a call sequence, so this holds after every call. -/
theorem speed_percent_in_range (calls : List ButtonCall) :
    getSpeed (runButtonCalls calls buttonsBoot) ≤ 100 ∧
      (getSpeed (runButtonCalls calls buttonsBoot) + 20) % 256 =
        getSpeed (runButtonCalls calls buttonsBoot) + 20 := by
  have h : getSpeed (runButtonCalls calls buttonsBoot) ≤ 100 :=
    runButtonCalls_speed_le calls buttonsBoot (Nat.zero_le 100)
  exact ⟨h, Nat.mod_eq_of_lt (by omega)⟩

/-- C25: for every speed percent `p` in 0..100 the display value is
`((p + 10) / 20) * 20` (no 8-bit wrap, no cap), a multiple of 20 that is at
least as near to `p` as every other multiple of 20, with the ties 10, 30, 50,
70 and 90 rounded up; and for `p ≥ 1` a due `updateLED` in the
`LED_SPEED_DISPLAY` pattern renders the frame in which LED `i` is lit iff
`i ≥ NUM_LEDS - (p + 10) / 20`, in red when the motor is active and blue
otherwise, so exactly `(p + 10) / 20` positions are lit and `p = 100` lights
all `NUM_LEDS` positions. -/
theorem speed_display_rounds_and_lights (wave : Nat → Nat → Nat) (now : Nat) (s : Led)
    (p : Nat) (hpat : s.currentPattern = LedPattern.LED_SPEED_DISPLAY)
    (hper : s.speedDisplayPercent = p) (hp1 : 1 ≤ p) (hp : p ≤ 100)
    (hdue : s.patternSpeed ≤ subU32 now s.lastUpdate) :
    (∀ q : Nat, q ≤ 100 →
      displaySpeedOf q = ((q + 10) / 20) * 20 ∧ displaySpeedOf q % 20 = 0 ∧
      (∀ m : Nat, m % 20 = 0 → Nat.dist q (displaySpeedOf q) ≤ Nat.dist q m) ∧
      (if q % 20 = 10 then displaySpeedOf q = q + 10 else True)) ∧
    (updateLED wave now s).map (fun t => t.leds) =
      some ((List.range NUM_LEDS).map (fun (i : Nat) =>
        if NUM_LEDS - (p + 10) / 20 ≤ i then
          (if s.speedDisplayIsActive then CRGB.mk 255 0 0 else CRGB.mk 0 0 255)
        else CRGB.Black)) ∧
    (updateLED wave now s).map (fun t => litCount t.leds) = some ((p + 10) / 20) ∧
    (100 + 10) / 20 = NUM_LEDS := by
  have hne : s.speedDisplayPercent ≠ 0 := by omega
  have hcol : (if s.speedDisplayIsActive then CRGB.mk 255 0 0 else CRGB.mk 0 0 255) =
      activeColorOf s.speedDisplayIsActive := by
    cases s.speedDisplayIsActive <;> rfl
  have hframe : (updateLED wave now s).map (fun t => t.leds) =
      some ((List.range NUM_LEDS).map (fun (i : Nat) =>
        if NUM_LEDS - (p + 10) / 20 ≤ i then activeColorOf s.speedDisplayIsActive
        else CRGB.Black)) := by
    rw [updateLED_speed_display_due wave now s hpat hdue,
      updateSpeedDisplay_nonzero wave now { s with lastUpdate := now } hne]
    simp only [Option.map_some', fastLedShow, fillLeds, hper]
    rw [speedDisplayFrame_eq p hp]
  refine ⟨?_, ?_, ?_, rfl⟩
  · intro q hq
    have e := displaySpeedOf_eq q hq
    refine ⟨e, ?_, ?_, ?_⟩
    · rw [e]; omega
    · intro m hm
      rw [e]
      unfold Nat.dist
      omega
    · split_ifs with ht
      rw [e]; omega
  · rw [hcol]
    exact hframe
  · have hk : (p + 10) / 20 ≤ 5 := by omega
    have hl := litCount_speedDisplayFrame ((p + 10) / 20) hk
      (activeColorOf s.speedDisplayIsActive) (activeColorOf_ne_black _)
    have h2 : (updateLED wave now s).map (fun t => litCount t.leds) =
        ((updateLED wave now s).map (fun t => t.leds)).map litCount := by
      rw [Option.map_map]
      rfl
    rw [h2, hframe, Option.map_some', hl]

theorem speed_display_rounds_and_lights_witness :
    (speedDisplayAt 45 true).currentPattern = LedPattern.LED_SPEED_DISPLAY ∧
      (speedDisplayAt 45 true).speedDisplayPercent = 45 ∧
      (speedDisplayAt 45 true).patternSpeed ≤ subU32 2600 (speedDisplayAt 45 true).lastUpdate ∧
      (updateLED triangleWave 2600 (speedDisplayAt 45 true)).map (fun t => litCount t.leds) =
        some ((45 + 10) / 20) :=
  ⟨by decide, by decide, by decide,
    (speed_display_rounds_and_lights triangleWave 2600 (speedDisplayAt 45 true) 45
      (by decide) (by decide) (by decide) (by decide) (by decide)).2.2.1⟩

theorem clampPercent_range (v : Int) : 0 ≤ clampPercent v ∧ clampPercent v ≤ 100 := by
  unfold clampPercent
  simp only
  split_ifs <;> omega

theorem handleMotorCommand_other_key (key : String) (value : Int) (m : MotorPWM)
    (h : ¬ key = "speed") : handleMotorCommand key value m = m := by
  unfold handleMotorCommand
  simp only [h, if_false]

theorem wsMotorCommand_calls_none (key : String) (value : Int) (s : WsState) :
    (wsMotorCommand none key value s).calls =
      s.calls ++ [WsCall.handleMotorCommand key value] := rfl

theorem wsMotorCommand_calls_some (f : String → Int → Device → Device) (key : String)
    (value : Int) (s : WsState) :
    (wsMotorCommand (some f) key value s).calls =
      s.calls ++ [WsCall.handleMotorCommand key value] ++ [WsCall.commandCallback key value] :=
  rfl

theorem wsMotorCommand_any_legacy (cb : Option (String → Int → Device → Device)) (key : String)
    (value : Int) (s : WsState) (hk : ¬ key = "speed") :
    (wsMotorCommand cb key value s).calls.any WsCall.isLegacySpeed =
      s.calls.any WsCall.isLegacySpeed := by
  cases cb with
  | none =>
    rw [wsMotorCommand_calls_none]
    simp [WsCall.isLegacySpeed, hk]
  | some f =>
    rw [wsMotorCommand_calls_some]
    simp [WsCall.isLegacySpeed, hk]

theorem wsMotorCommand_speedArgs (cb : Option (String → Int → Device → Device)) (key : String)
    (value : Int) (s : WsState) :
    (wsMotorCommand cb key value s).calls.filterMap WsCall.speedArg =
      s.calls.filterMap WsCall.speedArg := by
  cases cb with
  | none =>
    rw [wsMotorCommand_calls_none]
    simp [WsCall.speedArg]
  | some f =>
    rw [wsMotorCommand_calls_some]
    simp [WsCall.speedArg]

theorem wsHandlePair_any_legacy (cb : Option (String → Int → Device → Device))
    (pair : String × JsonValue) (s : WsState) :
    (wsHandlePair cb pair s).calls.any WsCall.isLegacySpeed =
      s.calls.any WsCall.isLegacySpeed := by
  obtain ⟨key, value⟩ := pair
  unfold wsHandlePair
  by_cases hk : key = "speed"
  · simp only [hk, if_true]
    cases value <;> simp [wsSetSpeed, WsCall.isLegacySpeed]
  · simp only [hk, if_false]
    cases value with
    | str x => rfl
    | int v => exact wsMotorCommand_any_legacy cb key v s hk
    | float v => exact wsMotorCommand_any_legacy cb key v s hk
    | other => rfl

theorem wsLoop_any_legacy (cb : Option (String → Int → Device → Device))
    (doc : List (String × JsonValue)) (s : WsState) :
    (wsLoop cb doc s).calls.any WsCall.isLegacySpeed = s.calls.any WsCall.isLegacySpeed := by
  induction doc generalizing s with
  | nil => rfl
  | cons pair rest ih => rw [wsLoop, ih, wsHandlePair_any_legacy]

theorem wsHandlePair_speedArgs (cb : Option (String → Int → Device → Device))
    (pair : String × JsonValue) (s : WsState) :
    (wsHandlePair cb pair s).calls.filterMap WsCall.speedArg =
      s.calls.filterMap WsCall.speedArg ++ (numericSpeed pair).toList := by
  obtain ⟨key, value⟩ := pair
  unfold wsHandlePair numericSpeed
  by_cases hk : key = "speed"
  · simp only [hk, if_true]
    cases value <;> simp [wsSetSpeed, WsCall.speedArg]
  · simp only [hk, if_false]
    cases value with
    | str x => simp
    | int v => rw [wsMotorCommand_speedArgs]; simp
    | float v => rw [wsMotorCommand_speedArgs]; simp
    | other => simp

theorem wsLoop_speedArgs (cb : Option (String → Int → Device → Device))
    (doc : List (String × JsonValue)) (s : WsState) :
    (wsLoop cb doc s).calls.filterMap WsCall.speedArg =
      s.calls.filterMap WsCall.speedArg ++ doc.filterMap numericSpeed := by
  induction doc generalizing s with
  | nil => simp [wsLoop]
  | cons pair rest ih =>
    rw [wsLoop, ih, wsHandlePair_speedArgs]
    cases h : numericSpeed pair <;> simp [List.filterMap_cons, h]

theorem wsHandlePair_motor (pair : String × JsonValue) (s : WsState) :
    (wsHandlePair none pair s).device.motor = s.device.motor := by
  obtain ⟨key, value⟩ := pair
  unfold wsHandlePair
  by_cases hk : key = "speed"
  · simp only [hk, if_true]
    cases value <;> rfl
  · simp only [hk, if_false]
    cases value with
    | str x => rfl
    | int v => exact handleMotorCommand_other_key key v _ hk
    | float v => exact handleMotorCommand_other_key key v _ hk
    | other => rfl

theorem wsLoop_motor (doc : List (String × JsonValue)) (s : WsState) :
    (wsLoop none doc s).device.motor = s.device.motor := by
  induction doc generalizing s with
  | nil => rfl
  | cons pair rest ih => rw [wsLoop, ih, wsHandlePair_motor]

theorem wsHandlePair_speed (pair : String × JsonValue) (s : WsState) :
    getSpeed (wsHandlePair none pair s).device.buttons =
      ((numericSpeed pair).map Int.toNat).getD (getSpeed s.device.buttons) := by
  obtain ⟨key, value⟩ := pair
  have hset : ∀ v : Int, getSpeed (setSpeed (clampPercent v).toNat s.device.buttons) =
      (clampPercent v).toNat := by
    intro v
    have hr := clampPercent_range v
    unfold getSpeed setSpeed
    have h256 : (clampPercent v).toNat % 256 = (clampPercent v).toNat :=
      Nat.mod_eq_of_lt (by omega)
    simp only [h256]
    split_ifs with h
    · exfalso; omega
    · rfl
  unfold wsHandlePair numericSpeed
  by_cases hk : key = "speed"
  · simp only [hk, if_true]
    cases value with
    | str x => rfl
    | int v => exact hset v
    | float v => exact hset v
    | other => rfl
  · simp only [hk, if_false]
    cases value <;> rfl

theorem wsLoop_speed (doc : List (String × JsonValue)) (s : WsState) :
    getSpeed (wsLoop none doc s).device.buttons =
      (((doc.filterMap numericSpeed).getLast?).map Int.toNat).getD
        (getSpeed s.device.buttons) := by
  induction doc generalizing s with
  | nil => rfl
  | cons pair rest ih =>
    rw [wsLoop, ih, wsHandlePair_speed]
    cases h : numericSpeed pair with
    | none => simp [List.filterMap_cons, h]
    | some v =>
      simp only [List.filterMap_cons, h, Option.map_some', Option.getD_some]
      cases hr : List.filterMap numericSpeed rest with
      | nil => simp
      | cons x xs =>
        have hl : (x :: xs).getLast? = some ((x :: xs).getLast (List.cons_ne_nil x xs)) :=
          List.getLast?_eq_getLast _ _
        simp [List.getLast?_cons_cons, hl]

theorem numericSpeed_all_range (doc : List (String × JsonValue)) :
    (doc.filterMap numericSpeed).all (fun v => decide (0 ≤ v ∧ v ≤ 100)) = true := by
  rw [List.all_eq_true]
  intro v hv
  rw [List.mem_filterMap] at hv
  obtain ⟨pair, _, hp⟩ := hv
  obtain ⟨key, value⟩ := pair
  unfold numericSpeed at hp
  have hr := clampPercent_range
  split_ifs at hp
  cases value with
  | str x => simp at hp
  | int w =>
    simp only [Option.some.injEq] at hp
    rw [← hp]
    simpa using hr w
  | float w =>
    simp only [Option.some.injEq] at hp
    rw [← hp]
    simpa using hr w
  | other => simp at hp

theorem webSocketText_not_command (cb : Option (String → Int → Device → Device))
    (doc : List (String × JsonValue)) (d : Device) (h : isCommandMessage doc = false) :
    webSocketText cb doc d = wsLoop cb doc { device := d, calls := [] } := by
  unfold isCommandMessage at h
  unfold webSocketText
  cases hl : jsonLookup "command" doc with
  | none => rfl
  | some value =>
    rw [hl] at h
    cases value with
    | str command =>
      simp only [Bool.or_eq_false_iff, decide_eq_false_iff_not] at h
      simp only [h.1.1, h.1.2, h.2, if_false]
    | int v => rfl
    | float v => rfl
    | other => rfl

theorem webSocketText_command (cb : Option (String → Int → Device → Device))
    (doc : List (String × JsonValue)) (d : Device) (h : isCommandMessage doc = true) :
    (webSocketText cb doc d).calls.any WsCall.isLegacySpeed = false ∧
      (webSocketText cb doc d).calls.filterMap WsCall.speedArg = [] ∧
      (webSocketText cb doc d).device.motor = d.motor ∧
      getSpeed (webSocketText cb doc d).device.buttons = getSpeed d.buttons := by
  unfold isCommandMessage at h
  unfold webSocketText
  cases hl : jsonLookup "command" doc with
  | none => rw [hl] at h; simp at h
  | some value =>
    rw [hl] at h
    cases value with
    | str command =>
      simp only
      by_cases h1 : command = "motor_start"
      · rw [if_pos h1]
        exact ⟨rfl, rfl, rfl, setMotorState_speedPercent true d.buttons⟩
      · by_cases h2 : command = "motor_stop"
        · rw [if_neg h1, if_pos h2]
          exact ⟨rfl, rfl, rfl, setMotorState_speedPercent false d.buttons⟩
        · by_cases h3 : command = "heartbeat"
          · rw [if_neg h1, if_neg h2, if_pos h3]
            exact ⟨rfl, rfl, rfl, rfl⟩
          · simp [h1, h2, h3] at h
    | int v => simp at h
    | float v => simp at h
    | other => simp at h

/-! ## Remote channel: claims -/

/-- C31, as stated, fails: the message `{"command": "motor_stop", "speed": 80}`
has a numeric "speed" member, but `webSocketEvent` returns after handling the
command: its only call is `setMotorState(false)`, `setSpeed` is not called and
`getSpeed()` stays 40. -/
theorem command_message_drops_speed :
    numericSpeed ("speed", JsonValue.int 80) = some 80 ∧
      getSpeed deviceIdleAt40.buttons = 40 ∧
      (webSocketEvent none (WsEvent.text (some stopWithSpeedMessage)) deviceIdleAt40).calls =
        [WsCall.setMotorState false] ∧
      (webSocketEvent none (WsEvent.text (some stopWithSpeedMessage))
        deviceIdleAt40).calls.filterMap WsCall.speedArg = [] ∧
      getSpeed (webSocketEvent none (WsEvent.text (some stopWithSpeedMessage))
        deviceIdleAt40).device.buttons = 40 := by
  decide

/-- C31, amended: for every JSON text message processed by `webSocketEvent`
whose "command" member is not one of the strings `motor_start`, `motor_stop`,
`heartbeat`, every numeric "speed" member is routed to `setSpeed` with the
value clamped to 0..100, in document order, so that `getSpeed()` afterwards is
the clamped value of the last such member; a message with one of those commands
returns after the command and makes no `setSpeed` call. For every event,
`handleMotorCommand` is never invoked with the key "speed", and (no callback
being registered) the motor driver's state, in particular its stored duty and
running flag, is unchanged. -/
theorem remote_speed_routing (cb : Option (String → Int → Device → Device))
    (doc : List (String × JsonValue)) (event : WsEvent) (d : Device) :
    (webSocketEvent cb (WsEvent.text (some doc)) d).calls.filterMap WsCall.speedArg =
        (if isCommandMessage doc then [] else doc.filterMap numericSpeed) ∧
      (doc.filterMap numericSpeed).all (fun v => decide (0 ≤ v ∧ v ≤ 100)) = true ∧
      getSpeed (webSocketEvent none (WsEvent.text (some doc)) d).device.buttons =
        (if isCommandMessage doc then getSpeed d.buttons
          else (((doc.filterMap numericSpeed).getLast?).map Int.toNat).getD
            (getSpeed d.buttons)) ∧
      (webSocketEvent cb event d).calls.any WsCall.isLegacySpeed = false ∧
      (webSocketEvent none event d).device.motor = d.motor ∧
      getMotorDuty (webSocketEvent none event d).device.motor = getMotorDuty d.motor ∧
      isMotorRunning (webSocketEvent none event d).device.motor = isMotorRunning d.motor := by
  have hA : ∀ c : Option (String → Int → Device → Device),
      (webSocketEvent c event d).calls.any WsCall.isLegacySpeed = false := by
    intro c
    cases event with
    | disconnected => rfl
    | connected => rfl
    | otherType => rfl
    | text parsed =>
      cases parsed with
      | none => rfl
      | some doc2 =>
        show (webSocketText c doc2 d).calls.any WsCall.isLegacySpeed = false
        cases hc : isCommandMessage doc2 with
        | true => exact (webSocketText_command c doc2 d hc).1
        | false => rw [webSocketText_not_command c doc2 d hc, wsLoop_any_legacy]; rfl
  have hB : (webSocketEvent none event d).device.motor = d.motor := by
    cases event with
    | disconnected => rfl
    | connected => rfl
    | otherType => rfl
    | text parsed =>
      cases parsed with
      | none => rfl
      | some doc2 =>
        show (webSocketText none doc2 d).device.motor = d.motor
        cases hc : isCommandMessage doc2 with
        | true => exact (webSocketText_command none doc2 d hc).2.2.1
        | false => rw [webSocketText_not_command none doc2 d hc, wsLoop_motor]
  refine ⟨?_, numericSpeed_all_range doc, ?_, hA cb, hB, by rw [hB], by rw [hB]⟩
  · show (webSocketText cb doc d).calls.filterMap WsCall.speedArg = _
    cases hc : isCommandMessage doc with
    | true => simpa using (webSocketText_command cb doc d hc).2.1
    | false =>
      rw [webSocketText_not_command cb doc d hc, wsLoop_speedArgs]
      simp
  · show getSpeed (webSocketText none doc d).device.buttons = _
    cases hc : isCommandMessage doc with
    | true => simpa using (webSocketText_command none doc d hc).2.2.2
    | false =>
      rw [webSocketText_not_command none doc d hc, wsLoop_speed]
      simp
